import Mathlib

/-!
Verification development for the scaffold/code-generation engine of the
`go_app_base` repository: the two interactive generator scripts
`create-entity.sh` and `create-module.sh` (source file `src/unnamed/part_006`;
the entity generator occupies lines 1-1826, the module generator lines
1827-2183).

The scripts are bash; we embed them shallowly: strings are lists of
characters, files are lists of lines, the filesystem is an association list
of paths to line lists plus a set of directories, and each script run is a
function from a filesystem and the operator's input lines to a final
filesystem, a list of printed messages and an exit status.

Character-level operations (`tr`, `sed` character classes, awk `toupper`)
are ASCII; the core `Char.isLower`/`Char.isUpper`/`Char.isDigit`/
`Char.toLower`/`Char.toUpper` functions implement exactly those ASCII
ranges and are used as the embedding of those tools.
-/

/-- Strings of the scripts are modelled as lists of characters. -/
abbrev Str : Type := List Char

/-- Coerce a Lean string literal to the model's string type. -/
def lit (s : String) : Str := s.data

/-- `tr upper lower` over a whole string. -/
def lowerAll (s : Str) : Str := s.map Char.toLower

/-- `tr lower upper` over a whole string. -/
def upperAll (s : Str) : Str := s.map Char.toUpper

/-! ## The naming normalizer (create-entity.sh lines 32-55) -/

/-- The guard of the sed substitution `s/([a-z0-9])([A-Z])/\1_\2/g`:
true when an underscore is inserted between adjacent characters `a` and
`b`. -/
def needU (a b : Char) : Bool := (a.isLower || a.isDigit) && b.isUpper

/-- The sed substitution `s/([a-z0-9])([A-Z])/\1_\2/g` itself: insert an
underscore between every lowercase-or-digit character and an immediately
following uppercase character.  Because the second character of a match is
uppercase it can never begin the next match, so a single left-to-right scan
is the exact semantics of the global substitution. -/
def insUnd : Str → Str
  | [] => []
  | [a] => [a]
  | a :: b :: rest =>
    if needU a b then a :: '_' :: insUnd (b :: rest)
    else a :: insUnd (b :: rest)

/-- `to_snake_case` (lines 33-37): the sed substitution followed by
`tr upper lower`. -/
def to_snake_case (s : Str) : Str := lowerAll (insUnd s)

/-- Splitting a string at `_` separators, as awk `-F_` does: `"a_b"`
gives fields `"a"` and `"b"`, a leading or doubled separator gives empty
fields. -/
def splitUnd : Str → List Str
  | [] => [[]]
  | c :: cs =>
    if c = '_' then [] :: splitUnd cs
    else
      match splitUnd cs with
      | [] => [[c]]
      | h :: t => (c :: h) :: t

/-- `capitalize` (lines 52-55): upper-case the first character, keep the
rest as typed. -/
def capitalize (s : Str) : Str :=
  match s with
  | [] => []
  | c :: cs => Char.toUpper c :: cs

/-- `to_camel_case` (lines 40-49): if the string has no underscore it is
returned as is; otherwise it is split at underscores, the first field kept,
every later field capitalized, and all fields concatenated. -/
def to_camel_case (s : Str) : Str :=
  if s.contains '_' then
    match splitUnd s with
    | [] => []
    | f :: rest => f ++ (rest.map capitalize).flatten
  else s

/-- The three-form naming pipeline as the field collector applies it
(lines 181-184): snake from the raw name, camel from the snake form,
pascal from the camel form. -/
def normalizeName (raw : Str) : Str × Str × Str :=
  let sn := to_snake_case raw
  let cm := to_camel_case sn
  (sn, cm, capitalize cm)

/-! ## The storage-type resolver (create-entity.sh lines 129-152) -/

/-- The alternatives of one branch of the bash `case`: does any pattern
`P*` of the branch match, i.e. is any `P` a prefix of the token? -/
def anyPre (ps : List Str) (t : Str) : Bool := ps.any (fun p => p.isPrefixOf t)

/-- Patterns of the string branch, in source order. -/
def strFam : List Str :=
  [lit "VARCHAR", lit "CHAR", lit "TEXT", lit "MEDIUMTEXT", lit "LONGTEXT", lit "TINYTEXT"]

/-- Patterns of the integer branch, in source order. -/
def intFam : List Str :=
  [lit "INT", lit "TINYINT", lit "SMALLINT", lit "MEDIUMINT", lit "BIGINT"]

/-- Patterns of the floating-point branch. -/
def fltFam : List Str := [lit "FLOAT", lit "DOUBLE", lit "DECIMAL"]

/-- Patterns of the boolean branch. -/
def boolFam : List Str := [lit "BOOL", lit "BOOLEAN"]

/-- Patterns of the temporal branch. -/
def dateFam : List Str := [lit "DATE", lit "DATETIME", lit "TIMESTAMP"]

/-- `map_mysql_to_go` (lines 130-152): a bash `case` over glob patterns
`P*`, tried branch by branch in source order, with `string` as the default
branch. -/
def map_mysql_to_go (t : Str) : Str :=
  if anyPre strFam t then lit "string"
  else if anyPre intFam t then lit "int"
  else if anyPre fltFam t then lit "float64"
  else if anyPre boolFam t then lit "bool"
  else if anyPre dateFam t then lit "time.Time"
  else lit "string"

/-! ## The field collector (create-entity.sh lines 160-198) -/

/-- `cut -d: -f1`: the part of the line before the first colon; the whole
line when it has no colon. -/
def cut1 : Str → Str
  | [] => []
  | c :: cs => if c = ':' then [] else c :: cut1 cs

/-- The rest of the line after its first colon (empty when there is
none). -/
def afterColon : Str → Str
  | [] => []
  | c :: cs => if c = ':' then cs else afterColon cs

/-- `cut -d: -f2`: the part between the first and second colon; `cut`
passes a line with no delimiter through whole. -/
def cut2 (s : Str) : Str :=
  if s.contains ':' then cut1 (afterColon s) else s

/-- One collected field, holding the five derived forms the script stores
in its `FIELDS` array entry `snake:mysql:go:camel:pascal`. -/
structure FieldSpec where
  snake : Str
  mysql : Str
  go : Str
  camel : Str
  pascal : Str
deriving DecidableEq, Repr

/-- Building one field from one accepted input line (lines 176-187). -/
def mkField (line : Str) : FieldSpec :=
  let nameIn := cut1 line
  let mysql := upperAll (cut2 line)
  let go := map_mysql_to_go mysql
  let snake := to_snake_case nameIn
  let camel := to_camel_case snake
  let pascal := capitalize camel
  ⟨snake, mysql, go, camel, pascal⟩

/-- The interactive field loop (lines 165-193): stop at the literal line
`done`, skip empty lines, turn every other line into a field.  The script
has no rejection branch: a line is either the terminator, empty, or
accepted. -/
def collectFields : List Str → List FieldSpec
  | [] => []
  | l :: ls =>
    if l = lit "done" then []
    else if l = [] then collectFields ls
    else mkField l :: collectFields ls

/-- Lines 205-212: whether some field resolved to the temporal host type. -/
def hasTimeField (fs : List FieldSpec) : Bool :=
  fs.any (fun f => f.go = lit "time.Time")

/-! ## Filesystem, messages and run results

The scripts read and write whole files and test directories for
existence.  A file is a list of lines; the filesystem is a set of
directories plus an association list from paths to files.  Paths are
modelled relative to the project root. -/

/-- The filesystem the generators operate on. -/
structure FS where
  dirs : List Str
  files : List (Str × List Str)
deriving DecidableEq, Repr

/-- `[ -d path ]`. -/
def FS.hasDir (fs : FS) (d : Str) : Bool := fs.dirs.contains d

/-- Read a whole file. -/
def FS.read (fs : FS) (p : Str) : Option (List Str) :=
  (fs.files.find? (fun e => e.1 == p)).map (fun e => e.2)

/-- Write (create or truncate, `cat >`) a whole file. -/
def FS.write (fs : FS) (p : Str) (v : List Str) : FS :=
  ⟨fs.dirs, (p, v) :: fs.files.filter (fun e => !(e.1 == p))⟩

/-- `mkdir -p` of a single directory entry. -/
def FS.mkdir (fs : FS) (d : Str) : FS := ⟨d :: fs.dirs, fs.files⟩

/-- One printed console line, tagged with the status marker the
`print_info`/`print_success`/`print_error`/`print_warning` helpers and bare
`echo` attach to it. -/
inductive Msg where
  | info (s : Str)
  | success (s : Str)
  | warn (s : Str)
  | err (s : Str)
  | plain (s : Str)
deriving DecidableEq, Repr

/-- Whether a message is an error diagnostic. -/
def Msg.isErr : Msg → Bool
  | .err _ => true
  | _ => false

/-- The observable outcome of one script run: the final filesystem, the
printed messages in order, and the exit status (`none` is exit code zero,
`some e` is a non-zero exit whose final diagnostic was `e`). -/
structure RunResult where
  fs : FS
  msgs : List Msg
  exit : Option Str
deriving DecidableEq, Repr

/-! ## The sed/grep patching model (composition-root patcher)

`sed -i "/pat/a\\ text"` appends `text` after every line the pattern
matches, `"/pat/i\\ text"` inserts it before every matching line, and a
pattern that matches no line leaves the file unchanged while sed still
exits zero.  The patterns the scripts use are literal text, matched either
anywhere in the line or (for `^import (`) anchored at the start; a matcher
is therefore a boolean predicate on a line. -/

/-- Does `pat` occur as contiguous text inside `s` (grep/sed literal
match)? -/
def containsSub (pat : Str) : Str → Bool
  | [] => pat.isPrefixOf []
  | c :: cs => pat.isPrefixOf (c :: cs) || containsSub pat cs

/-- `sed "/pat/a\\ payload"`: append the payload lines after every line
the matcher hits. -/
def sedAfter (hit : Str → Bool) (payload : List Str) : List Str → List Str
  | [] => []
  | l :: ls =>
    if hit l then l :: payload ++ sedAfter hit payload ls
    else l :: sedAfter hit payload ls

/-- `sed "/pat/i\\ payload"`: insert the payload lines before every line
the matcher hits. -/
def sedBefore (hit : Str → Bool) (payload : List Str) : List Str → List Str
  | [] => []
  | l :: ls =>
    if hit l then payload ++ l :: sedBefore hit payload ls
    else l :: sedBefore hit payload ls

/-- `sed -i` on a file: fails (non-zero, aborting a `set -e` script) when
the file does not exist, otherwise rewrites it with the edited content. -/
def patchFile (fs : FS) (p : Str) (f : List Str → List Str) : Option FS :=
  match fs.read p with
  | none => none
  | some ls => some (fs.write p (f ls))

/-- One guarded insertion of create-module.sh (lines 2068-2152): `grep -q`
for the guard text first; when present, warn and skip; otherwise apply the
sed edit.  A missing target file makes the step fail. -/
def guardedStep (fs : FS) (p : Str) (g : Str) (step : List Str → List Str)
    (okM warnM : Msg) : Option (FS × Msg) :=
  match fs.read p with
  | none => none
  | some ls =>
    if ls.any (fun l => containsSub g l) then some (fs, warnM)
    else some (fs.write p (step ls), okM)

/-! ## Repository-file SQL fragments (create-entity.sh)

The `Save`, `FindById` and `FindAll` loops of the generated repository
emit, in one fixed order each, the column tokens of the INSERT statement,
its placeholders, its bound values, and the scan destinations of the two
read methods.  The token sequences, in emission order, are the following
lists (DDD: lines 443-515 and 526-564; 4-tier: lines 1249-1385). -/

/-- INSERT column tokens, DDD `Save` (lines 444, 448-455): `id`, then one
token per field in stored order, then `created_at`, `updated_at`. -/
def insertColumnsD (fs : List FieldSpec) : List Str :=
  lit "id" :: fs.map (fun f => f.snake) ++ [lit "created_at", lit "updated_at"]

/-- INSERT placeholder tokens, DDD `Save` (lines 444, 457-464): one `?`
for the id, one per field, two for the timestamps. -/
def insertPlaceholdersD (fs : List FieldSpec) : List Str :=
  lit "?" :: fs.map (fun _ => lit "?") ++ [lit "?", lit "?"]

/-- Bound-value tokens of the `Exec` call, DDD `Save` (lines 467-482). -/
def insertBoundD (fs : List FieldSpec) : List Str :=
  lit "entity.GetId()" ::
    fs.map (fun f => lit "entity.Get" ++ f.pascal ++ lit "()") ++
    [lit "entity.GetCreatedAt()", lit "entity.GetUpdatedAt()"]

/-- Scan destinations of `FindById`, DDD (lines 503-514). -/
def findByIdScanD (fs : List FieldSpec) : List Str :=
  lit "&dbEntity.Id" ::
    fs.map (fun f => lit "&dbEntity." ++ f.pascal) ++
    [lit "&dbEntity.CreatedAt", lit "&dbEntity.UpdatedAt"]

/-- Scan destinations of `FindAll`, DDD (lines 553-564): the same tokens
as `FindById`, emitted by a separate loop in the script. -/
def findAllScanD (fs : List FieldSpec) : List Str :=
  lit "&dbEntity.Id" ::
    fs.map (fun f => lit "&dbEntity." ++ f.pascal) ++
    [lit "&dbEntity.CreatedAt", lit "&dbEntity.UpdatedAt"]

/-- INSERT column tokens, 4-tier `Save` (lines 1349-1359). -/
def insertColumnsF (fs : List FieldSpec) : List Str :=
  lit "id" :: fs.map (fun f => f.snake) ++ [lit "created_at", lit "updated_at"]

/-- INSERT placeholder tokens, 4-tier `Save` (lines 1361-1367). -/
def insertPlaceholdersF (fs : List FieldSpec) : List Str :=
  lit "?" :: fs.map (fun _ => lit "?") ++ [lit "?", lit "?"]

/-- Bound-value tokens, 4-tier `Save` (lines 1371-1382). -/
def insertBoundF (fs : List FieldSpec) : List Str :=
  lit "entity.ID" ::
    fs.map (fun f => lit "entity." ++ f.pascal) ++
    [lit "entity.CreatedAt", lit "entity.UpdatedAt"]

/-- Scan destinations of `FindById`, 4-tier (lines 1266-1277). -/
def findByIdScanF (fs : List FieldSpec) : List Str :=
  lit "&entity.ID" ::
    fs.map (fun f => lit "&entity." ++ f.pascal) ++
    [lit "&entity.CreatedAt", lit "&entity.UpdatedAt"]

/-- Scan destinations of `FindAll`, 4-tier (lines 1316-1327). -/
def findAllScanF (fs : List FieldSpec) : List Str :=
  lit "&entity.ID" ::
    fs.map (fun f => lit "&entity." ++ f.pascal) ++
    [lit "&entity.CreatedAt", lit "&entity.UpdatedAt"]

/-- One row of the single traversal the DDD INSERT/read lists can be read
off from: for each field, its column name, its bound-value token and its
scan-destination token together. -/
def saveRowD (f : FieldSpec) : Str × Str × Str :=
  (f.snake, lit "entity.Get" ++ f.pascal ++ lit "()", lit "&dbEntity." ++ f.pascal)

/-- The single field-list traversal, DDD: the id row, one row per field in
stored order, the two timestamp rows. -/
def saveRowsD (fs : List FieldSpec) : List (Str × Str × Str) :=
  (lit "id", lit "entity.GetId()", lit "&dbEntity.Id") ::
    fs.map saveRowD ++
    [(lit "created_at", lit "entity.GetCreatedAt()", lit "&dbEntity.CreatedAt"),
     (lit "updated_at", lit "entity.GetUpdatedAt()", lit "&dbEntity.UpdatedAt")]

/-- One row of the single traversal, 4-tier. -/
def saveRowF (f : FieldSpec) : Str × Str × Str :=
  (f.snake, lit "entity." ++ f.pascal, lit "&entity." ++ f.pascal)

/-- The single field-list traversal, 4-tier. -/
def saveRowsF (fs : List FieldSpec) : List (Str × Str × Str) :=
  (lit "id", lit "entity.ID", lit "&entity.ID") ::
    fs.map saveRowF ++
    [(lit "created_at", lit "entity.CreatedAt", lit "&entity.CreatedAt"),
     (lit "updated_at", lit "entity.UpdatedAt", lit "&entity.UpdatedAt")]

/-! ## The create-entity run

The run model follows the script's control flow: the precondition checks
in source order, then (per architecture) the file emissions, the two sed
patches of the composition-root files, and the final report.  The bodies
of the emitted files are long heredoc templates none of the claims
inspect; they are abstracted as a parameter `gen` mapping each target path
to its content, so every run-level theorem below holds for every choice of
emitted text.  The interactive prompt text and the module listing printed
before any input are elided from the message stream; all status, warning
and error messages of the generation and patch phases are modelled. -/

/-- The two supported architecture styles. -/
inductive Arch where
  | ddd
  | fourTier
deriving DecidableEq, Repr

/-- Architecture detection (create-entity.sh lines 99-110): DDD exactly
when `core/domain` exists under the module directory, otherwise 4-tier
exactly when `models` exists, otherwise undetected. -/
def detectArch (fs : FS) (mdir : Str) : Option Arch :=
  if fs.hasDir (mdir ++ lit "/core/domain") then some Arch.ddd
  else if fs.hasDir (mdir ++ lit "/models") then some Arch.fourTier
  else none

/-- Everything the operator types during one create-entity run, in prompt
order.  There is no architecture prompt: the script derives the style from
the module directory. -/
structure EntityInput where
  modulePath : Str
  moduleName : Str
  entityName : Str
  fieldLines : List Str
deriving DecidableEq, Repr

/-- DDD domain-entity file (line 224). -/
def dddEntityPath (mdir lower : Str) : Str :=
  mdir ++ lit "/core/domain/entities/" ++ lower ++ lit ".go"

/-- DDD repository-interface file (line 378). -/
def dddRepoIfacePath (mdir lower : Str) : Str :=
  mdir ++ lit "/core/application/repositories/" ++ lower ++ lit "_repository.go"

/-- DDD repository-implementation file (line 402). -/
def dddRepoImplPath (mdir lower : Str) : Str :=
  mdir ++ lit "/infra/repositories/" ++ lower ++ lit "_mysql_repository.go"

/-- DDD use-case files (lines 650, 717, 789, 887, 957). -/
def dddUcPath (kind : Str) (mdir lower : Str) : Str :=
  mdir ++ lit "/core/application/usecases/" ++ kind ++ lower ++ lit ".go"

/-- DDD controller file (line 995). -/
def dddControllerPath (mdir lower : Str) : Str :=
  mdir ++ lit "/infra/web/controllers/" ++ lower ++ lit "_controller.go"

/-- The DDD module-wiring file patched in place (line 1129). -/
def dddModuleFile (mdir : Str) : Str := mdir ++ lit "/infra/module.go"

/-- The DDD route-table file patched in place (line 1159). -/
def dddRoutesFile (mdir : Str) : Str := mdir ++ lit "/infra/web/routes.go"

/-- 4-tier model file (line 1191). -/
def fourModelPath (mdir lower : Str) : Str :=
  mdir ++ lit "/models/" ++ lower ++ lit ".go"

/-- 4-tier repository file (line 1224). -/
def fourRepoPath (mdir lower : Str) : Str :=
  mdir ++ lit "/repositories/" ++ lower ++ lit "_repository.go"

/-- 4-tier service file (line 1430). -/
def fourServicePath (mdir lower : Str) : Str :=
  mdir ++ lit "/services/" ++ lower ++ lit "_service.go"

/-- 4-tier controller file (line 1605). -/
def fourControllerPath (mdir lower : Str) : Str :=
  mdir ++ lit "/controllers/" ++ lower ++ lit "_controller.go"

/-- The 4-tier module-wiring file patched in place (line 1751). -/
def fourModuleFile (mdir : Str) : Str := mdir ++ lit "/module.go"

/-- The 4-tier route-table file patched in place (line 1775). -/
def fourRoutesFile (mdir : Str) : Str := mdir ++ lit "/routes.go"

/-- The DDD emission targets in creation order. -/
def dddPaths (mdir lower : Str) : List Str :=
  [dddEntityPath mdir lower, dddRepoIfacePath mdir lower, dddRepoImplPath mdir lower,
   dddUcPath (lit "create_") mdir lower, dddUcPath (lit "get_") mdir lower,
   dddUcPath (lit "list_") mdir lower, dddUcPath (lit "update_") mdir lower,
   dddUcPath (lit "delete_") mdir lower, dddControllerPath mdir lower]

/-- The 4-tier emission targets in creation order. -/
def fourPaths (mdir lower : Str) : List Str :=
  [fourModelPath mdir lower, fourRepoPath mdir lower,
   fourServicePath mdir lower, fourControllerPath mdir lower]

/-- Write a list of generated files in order. -/
def emitAll (gen : Str → List Str) (fs : FS) (ps : List Str) : FS :=
  ps.foldl (fun a p => a.write p (gen p)) fs

/-- The DDD emission-phase messages (info line and per-file status line,
source order). -/
def dddEmitMsgs (mdir lower : Str) : List Msg :=
  [Msg.info (lit "Generating DDD structure..."),
   Msg.info (lit "Creating domain entity..."),
   Msg.success (lit "Created entity: " ++ dddEntityPath mdir lower),
   Msg.info (lit "Creating repository interface..."),
   Msg.success (lit "Created repository interface: " ++ dddRepoIfacePath mdir lower),
   Msg.info (lit "Creating repository implementation..."),
   Msg.success (lit "Created repository implementation: " ++ dddRepoImplPath mdir lower),
   Msg.info (lit "Creating use cases..."),
   Msg.success (lit "Created use case: " ++ dddUcPath (lit "create_") mdir lower),
   Msg.success (lit "Created use case: " ++ dddUcPath (lit "get_") mdir lower),
   Msg.success (lit "Created use case: " ++ dddUcPath (lit "list_") mdir lower),
   Msg.success (lit "Created use case: " ++ dddUcPath (lit "update_") mdir lower),
   Msg.success (lit "Created use case: " ++ dddUcPath (lit "delete_") mdir lower),
   Msg.info (lit "Creating controller..."),
   Msg.success (lit "Created controller: " ++ dddControllerPath mdir lower)]

/-- The 4-tier emission-phase messages. -/
def fourEmitMsgs (mdir lower : Str) : List Msg :=
  [Msg.info (lit "Generating 4-tier structure..."),
   Msg.info (lit "Creating model..."),
   Msg.success (lit "Created model: " ++ fourModelPath mdir lower),
   Msg.info (lit "Creating repository..."),
   Msg.success (lit "Created repository: " ++ fourRepoPath mdir lower),
   Msg.info (lit "Creating service..."),
   Msg.success (lit "Created service: " ++ fourServicePath mdir lower),
   Msg.info (lit "Creating controller..."),
   Msg.success (lit "Created controller: " ++ fourControllerPath mdir lower)]

/-- The struct anchor of the module-wiring patch (lines 1132, 1753):
literal text `type <Module>Module struct \x7b`. -/
def modStructPat (mcap : Str) : Str := lit "type " ++ mcap ++ lit "Module struct \x7b"

/-- The return anchor of the module-wiring patch (lines 1137, 1149, 1757,
1765): literal text `return &<Module>Module\x7b`. -/
def modRetPat (mcap : Str) : Str := lit "return &" ++ mcap ++ lit "Module\x7b"

/-- Payload appended after the struct anchor (lines 1132-1134, 1753-1755). -/
def modStructPayload (ecap : Str) : List Str :=
  [lit "\t" ++ ecap ++ lit "Controller *controllers." ++ ecap ++ lit "Controller"]

/-- Payload inserted before the return anchor, DDD (lines 1137-1147). -/
def modWiringD (ecap lower : Str) : List Str :=
  [[],
   lit "\t// " ++ ecap ++ lit " CRUD",
   lit "\t" ++ lower ++ lit "Repo := repositories.New" ++ ecap ++ lit "MySQLRepository(db)",
   lit "\tcreate" ++ ecap ++ lit "UC := usecases.NewCreate" ++ ecap ++ lit "UseCase(" ++ lower ++ lit "Repo)",
   lit "\tget" ++ ecap ++ lit "UC := usecases.NewGet" ++ ecap ++ lit "UseCase(" ++ lower ++ lit "Repo)",
   lit "\tlist" ++ ecap ++ lit "UC := usecases.NewList" ++ ecap ++ lit "UseCase(" ++ lower ++ lit "Repo)",
   lit "\tupdate" ++ ecap ++ lit "UC := usecases.NewUpdate" ++ ecap ++ lit "UseCase(" ++ lower ++ lit "Repo)",
   lit "\tdelete" ++ ecap ++ lit "UC := usecases.NewDelete" ++ ecap ++ lit "UseCase(" ++ lower ++ lit "Repo)",
   lit "\t" ++ lower ++ lit "Controller := controllers.New" ++ ecap ++ lit "Controller(*create" ++ ecap ++ lit "UC, *get" ++ ecap ++ lit "UC, *list" ++ ecap ++ lit "UC, *update" ++ ecap ++ lit "UC, *delete" ++ ecap ++ lit "UC)"]

/-- Payload inserted before the return anchor, 4-tier (lines 1757-1762). -/
def modWiringF (ecap lower : Str) : List Str :=
  [[],
   lit "\t// " ++ ecap ++ lit " CRUD",
   lit "\t" ++ lower ++ lit "Repo := repositories.New" ++ ecap ++ lit "Repository(db)",
   lit "\t" ++ lower ++ lit "Service := services.New" ++ ecap ++ lit "Service(" ++ lower ++ lit "Repo)",
   lit "\t" ++ lower ++ lit "Controller := controllers.New" ++ ecap ++ lit "Controller(" ++ lower ++ lit "Service)"]

/-- Payload appended after the return anchor (lines 1149-1151, 1765-1767). -/
def modRetPayload (ecap lower : Str) : List Str :=
  [lit "\t\t" ++ ecap ++ lit "Controller: " ++ lower ++ lit "Controller,"]

/-- The route-table anchor (lines 1161, 1777): literal text
`func RegisterRoutes`. -/
def routesPat : Str := lit "func RegisterRoutes"

/-- The five-route wiring payload appended after the route-table anchor
(lines 1161-1179 and, identical text, 1777-1795). -/
def routeWiring (ecap lower : Str) : List Str :=
  [[],
   lit "\t// " ++ ecap ++ lit " routes",
   lit "\trouter.POST(\"/" ++ lower ++ lit "s\", func(ctx *gin.Context) \x7b",
   lit "\t\tmodule." ++ ecap ++ lit "Controller.Create(context.NewGinContextAdapter(ctx))",
   lit "\t\x7d)",
   lit "\trouter.GET(\"/" ++ lower ++ lit "s/:id\", func(ctx *gin.Context) \x7b",
   lit "\t\tmodule." ++ ecap ++ lit "Controller.Get(context.NewGinContextAdapter(ctx))",
   lit "\t\x7d)",
   lit "\trouter.GET(\"/" ++ lower ++ lit "s\", func(ctx *gin.Context) \x7b",
   lit "\t\tmodule." ++ ecap ++ lit "Controller.List(context.NewGinContextAdapter(ctx))",
   lit "\t\x7d)",
   lit "\trouter.PUT(\"/" ++ lower ++ lit "s/:id\", func(ctx *gin.Context) \x7b",
   lit "\t\tmodule." ++ ecap ++ lit "Controller.Update(context.NewGinContextAdapter(ctx))",
   lit "\t\x7d)",
   lit "\trouter.DELETE(\"/" ++ lower ++ lit "s/:id\", func(ctx *gin.Context) \x7b",
   lit "\t\tmodule." ++ ecap ++ lit "Controller.Delete(context.NewGinContextAdapter(ctx))",
   lit "\t\x7d)"]

/-- The three sed edits applied to the DDD module-wiring file, composed in
script order (lines 1132-1151). -/
def modulePatchD (mcap ecap lower : Str) (ls : List Str) : List Str :=
  sedAfter (fun l => containsSub (modRetPat mcap) l) (modRetPayload ecap lower)
    (sedBefore (fun l => containsSub (modRetPat mcap) l) (modWiringD ecap lower)
      (sedAfter (fun l => containsSub (modStructPat mcap) l) (modStructPayload ecap) ls))

/-- The three sed edits applied to the 4-tier module-wiring file, composed
in script order (lines 1753-1767). -/
def modulePatchF (mcap ecap lower : Str) (ls : List Str) : List Str :=
  sedAfter (fun l => containsSub (modRetPat mcap) l) (modRetPayload ecap lower)
    (sedBefore (fun l => containsSub (modRetPat mcap) l) (modWiringF ecap lower)
      (sedAfter (fun l => containsSub (modStructPat mcap) l) (modStructPayload ecap) ls))

/-- The single sed edit applied to the route-table file (lines 1161-1179,
1777-1795). -/
def routesPatch (ecap lower : Str) (ls : List Str) : List Str :=
  sedAfter (fun l => containsSub routesPat l) (routeWiring ecap lower) ls

/-- The column definitions of the reported CREATE TABLE statement in
emission order (lines 1806-1816): the identifier, one column per field in
stored order, the two timestamp columns. -/
def createTableColumns (fields : List FieldSpec) : List Str :=
  lit "id" :: fields.map (fun f => f.snake) ++ [lit "created_at", lit "updated_at"]

/-- The text lines of the reported CREATE TABLE statement (lines
1806-1817). -/
def createTableLines (lower : Str) (fields : List FieldSpec) : List Str :=
  (lit "CREATE TABLE " ++ lower ++ lit "s (") ::
  (lit "    id VARCHAR(36) PRIMARY KEY,") ::
  fields.map (fun f => lit "    " ++ f.snake ++ lit " " ++ f.mysql ++ lit ",") ++
  [lit "    created_at TIMESTAMP DEFAULT CURRENT_TIMESTAMP,",
   lit "    updated_at TIMESTAMP DEFAULT CURRENT_TIMESTAMP ON UPDATE CURRENT_TIMESTAMP",
   lit ");"]

/-- The five reported API-endpoint lines (lines 1821-1825). -/
def endpointLines (lower : Str) : List Str :=
  [lit "  POST   /" ++ lower ++ lit "s          - Create new " ++ lower,
   lit "  GET    /" ++ lower ++ lit "s/:id      - Get " ++ lower ++ lit " by ID",
   lit "  GET    /" ++ lower ++ lit "s          - List all " ++ lower ++ lit "s (with pagination)",
   lit "  PUT    /" ++ lower ++ lit "s/:id      - Update " ++ lower,
   lit "  DELETE /" ++ lower ++ lit "s/:id      - Delete " ++ lower]

/-- The final report (lines 1801-1826): overall success line, the CREATE
TABLE statement, the endpoint list. -/
def reportMsgs (ecap lower : Str) (fields : List FieldSpec) : List Msg :=
  [Msg.plain [],
   Msg.success (lit "Entity " ++ ecap ++ lit " created successfully!"),
   Msg.plain [],
   Msg.info (lit "SQL to create the table:"),
   Msg.plain []] ++
  (createTableLines lower fields).map Msg.plain ++
  [Msg.plain [],
   Msg.info (lit "API Endpoints created:")] ++
  (endpointLines lower).map Msg.plain ++
  [Msg.plain []]

/-- Diagnostic of a sed invocation on a missing file (which aborts the
`set -e` script). -/
def msgSedFail : Str := lit "sed: no such file"

/-- Lines 64-67. -/
def msgNoModPath : Str := lit "Could not find module path in go.mod"

/-- Lines 85-88. -/
def msgEmptyModName : Str := lit "Module name cannot be empty"

/-- Lines 93-97. -/
def msgNoModule (mname mdir : Str) : Str :=
  lit "Module " ++ mname ++ lit " does not exist at " ++ mdir

/-- Lines 106-110. -/
def msgNoArch : Str := lit "Could not detect module architecture"

/-- Lines 117-120. -/
def msgEmptyEntity : Str := lit "Entity name cannot be empty"

/-- Lines 195-198. -/
def msgNoFields : Str := lit "At least one field is required"

/-- The DDD emission/patch/report tail of the run (lines 218-1182 plus the
report). -/
def runDddTail (gen : Str → List Str) (fs0 : FS) (m0 : List Msg)
    (mdir lower ecap mcap : Str) (fields : List FieldSpec) : RunResult :=
  let fs1 := emitAll gen fs0 (dddPaths mdir lower)
  let m1 := m0 ++ dddEmitMsgs mdir lower
  match patchFile fs1 (dddModuleFile mdir) (modulePatchD mcap ecap lower) with
  | none => ⟨fs1, m1 ++ [Msg.info (lit "Updating module.go...")], some msgSedFail⟩
  | some fs2 =>
    let m2 := m1 ++ [Msg.info (lit "Updating module.go..."), Msg.success (lit "Updated module.go")]
    match patchFile fs2 (dddRoutesFile mdir) (routesPatch ecap lower) with
    | none => ⟨fs2, m2 ++ [Msg.info (lit "Updating routes.go...")], some msgSedFail⟩
    | some fs3 =>
      ⟨fs3,
       m2 ++ [Msg.info (lit "Updating routes.go..."), Msg.success (lit "Updated routes.go")] ++
         reportMsgs ecap lower fields,
       none⟩

/-- The 4-tier emission/patch/report tail of the run (lines 1184-1798 plus
the report). -/
def runFourTail (gen : Str → List Str) (fs0 : FS) (m0 : List Msg)
    (mdir lower ecap mcap : Str) (fields : List FieldSpec) : RunResult :=
  let fs1 := emitAll gen fs0 (fourPaths mdir lower)
  let m1 := m0 ++ fourEmitMsgs mdir lower
  match patchFile fs1 (fourModuleFile mdir) (modulePatchF mcap ecap lower) with
  | none => ⟨fs1, m1 ++ [Msg.info (lit "Updating module.go...")], some msgSedFail⟩
  | some fs2 =>
    let m2 := m1 ++ [Msg.info (lit "Updating module.go..."), Msg.success (lit "Updated module.go")]
    match patchFile fs2 (fourRoutesFile mdir) (routesPatch ecap lower) with
    | none => ⟨fs2, m2 ++ [Msg.info (lit "Updating routes.go...")], some msgSedFail⟩
    | some fs3 =>
      ⟨fs3,
       m2 ++ [Msg.info (lit "Updating routes.go..."), Msg.success (lit "Updated routes.go")] ++
         reportMsgs ecap lower fields,
       none⟩

/-- One full create-entity run (create-entity.sh).  The precondition
checks appear in source order (lines 62-67, 85-88, 93-97, 99-110, 117-120,
195-198); every failing check aborts with the filesystem untouched, then
the detected architecture routes to the matching emission tail. -/
def createEntity (gen : Str → List Str) (fs0 : FS) (inp : EntityInput) : RunResult :=
  if inp.modulePath = [] then ⟨fs0, [Msg.err msgNoModPath], some msgNoModPath⟩
  else
    let m0 : List Msg := [Msg.info (lit "Project module path: " ++ inp.modulePath)]
    if inp.moduleName = [] then ⟨fs0, m0 ++ [Msg.err msgEmptyModName], some msgEmptyModName⟩
    else
      let mdir := lit "internal/" ++ inp.moduleName
      if fs0.hasDir mdir then
        match detectArch fs0 mdir with
        | none => ⟨fs0, m0 ++ [Msg.err msgNoArch], some msgNoArch⟩
        | some arch =>
          if inp.entityName = [] then ⟨fs0, m0 ++ [Msg.err msgEmptyEntity], some msgEmptyEntity⟩
          else
            let lower := lowerAll inp.entityName
            let ecap := capitalize inp.entityName
            let fields := collectFields inp.fieldLines
            if fields = [] then ⟨fs0, m0 ++ [Msg.err msgNoFields], some msgNoFields⟩
            else
              let mcap := capitalize inp.moduleName
              match arch with
              | Arch.ddd => runDddTail gen fs0 m0 mdir lower ecap mcap fields
              | Arch.fourTier => runFourTail gen fs0 m0 mdir lower ecap mcap fields
      else
        ⟨fs0, m0 ++ [Msg.err (msgNoModule inp.moduleName mdir)],
         some (msgNoModule inp.moduleName mdir)⟩

/-! ## The create-module run (create-module.sh, source lines 1827-2183) -/

/-- Everything the operator types during one create-module run: the module
name, then the architecture choice (`1` = 4-tier, `2` = DDD). -/
structure ModuleInput where
  modulePath : Str
  moduleNameRaw : Str
  archChoice : Str
deriving DecidableEq, Repr

/-- `tr ' ' '_'` (line 1883). -/
def trSpaces (s : Str) : Str := s.map (fun c => if c = ' ' then '_' else c)

/-- Line 1894-1897. -/
def msgBadChoice : Str := lit "Invalid choice. Please enter 1 or 2"

/-- Lines 1902-1905. -/
def msgModExists (mname mdir : Str) : Str :=
  lit "Module " ++ mname ++ lit " already exists at " ++ mdir

/-- The directory tree `mkdir -p` creates for a 4-tier module (lines
1915-1918), ancestors included. -/
def moduleDirsF (mdir : Str) : List Str :=
  [mdir, mdir ++ lit "/models", mdir ++ lit "/repositories",
   mdir ++ lit "/services", mdir ++ lit "/controllers"]

/-- The directory tree `mkdir -p` creates for a DDD module (lines
1981-1985), ancestors included. -/
def moduleDirsD (mdir : Str) : List Str :=
  [mdir, mdir ++ lit "/core", mdir ++ lit "/core/application",
   mdir ++ lit "/core/application/repositories",
   mdir ++ lit "/core/application/usecases",
   mdir ++ lit "/core/domain", mdir ++ lit "/core/domain/entities",
   mdir ++ lit "/infra", mdir ++ lit "/infra/repositories",
   mdir ++ lit "/infra/web", mdir ++ lit "/infra/web/controllers"]

/-- Create a list of directories in order. -/
def mkdirs (fs : FS) (ds : List Str) : FS := ds.foldl FS.mkdir fs

/-- The global component-registry file patched by create-module (line
2051). -/
def containerPath : Str := lit "cmd/server/container/container.go"

/-- The global route-registration file patched by create-module (line
2119). -/
def registerRoutesPath : Str := lit "internal/infra/web/register_routes.go"

/-- The anchored matcher of the two import insertions (`/^import (/`,
lines 2071, 2135). -/
def importAnchor (l : Str) : Bool := (lit "import (").isPrefixOf l

/-- The emission and guarded-patch tail of create-module once all checks
passed (lines 1911-2156).  `four` selects the 4-tier branch
(`archChoice = 1`). -/
def createModuleTail (gen : Str → List Str) (fs0 : FS) (m0 : List Msg)
    (mp mname : Str) (four : Bool) : RunResult :=
  let mcap := capitalize mname
  let mdir := lit "internal/" ++ mname
  let fs1 := mkdirs fs0 (if four then moduleDirsF mdir else moduleDirsD mdir)
  let mfile := if four then mdir ++ lit "/module.go" else mdir ++ lit "/infra/module.go"
  let rfile := if four then mdir ++ lit "/routes.go" else mdir ++ lit "/infra/web/routes.go"
  let fs2 := (fs1.write mfile (gen mfile)).write rfile (gen rfile)
  let m1 := m0 ++
    [Msg.success (lit "Created directory structure"),
     Msg.success (lit "Created module.go"),
     Msg.success (lit "Created routes.go"),
     Msg.info (lit "Updating container.go...")]
  let ialias := if four then mname else mname ++ lit "Infra"
  let ipath := if four then mp ++ lit "/internal/" ++ mname
               else mp ++ lit "/internal/" ++ mname ++ lit "/infra"
  let sname := mcap ++ lit "Module"
  let stype := if four then lit "*" ++ mname ++ lit "." ++ mcap ++ lit "Module"
               else lit "*" ++ mname ++ lit "Infra." ++ mcap ++ lit "Module"
  let initCall := if four then mname ++ lit ".New" ++ mcap ++ lit "Module(db)"
                  else mname ++ lit "Infra.New" ++ mcap ++ lit "Module(db)"
  let ralias := if four then mname else mname ++ lit "Web"
  let rpath := if four then mp ++ lit "/internal/" ++ mname
               else mp ++ lit "/internal/" ++ mname ++ lit "/infra/web"
  let rcall := if four then mname ++ lit ".RegisterRoutes(router, c." ++ sname ++ lit ")"
               else mname ++ lit "Web.RegisterRoutes(router, c." ++ sname ++ lit ")"
  match guardedStep fs2 containerPath (lit "\"" ++ ipath ++ lit "\"")
      (sedAfter importAnchor [lit "\t" ++ ialias ++ lit " \"" ++ ipath ++ lit "\""])
      (Msg.success (lit "Added import to container.go"))
      (Msg.warn (lit "Import already exists in container.go")) with
  | none => ⟨fs2, m1, some msgSedFail⟩
  | some (fs3, e1) =>
  match guardedStep fs3 containerPath sname
      (sedAfter (fun l => containsSub (lit "type Container struct \x7b") l)
        [lit "\t" ++ sname ++ lit " " ++ stype])
      (Msg.success (lit "Added field to Container struct"))
      (Msg.warn (lit "Field already exists in Container struct")) with
  | none => ⟨fs3, m1 ++ [e1], some msgSedFail⟩
  | some (fs4, e2) =>
  match guardedStep fs4 containerPath initCall
      (sedAfter (fun l => containsSub (lit "Initialize modules (each module wires its own dependencies)") l)
        [lit "\t" ++ mname ++ lit "Module := " ++ initCall])
      (Msg.success (lit "Added module initialization to New function"))
      (Msg.warn (lit "Module initialization already exists in New function")) with
  | none => ⟨fs4, m1 ++ [e1, e2], some msgSedFail⟩
  | some (fs5, e3) =>
  match guardedStep fs5 containerPath (sname ++ lit ":")
      (sedAfter (fun l => containsSub (lit "return &Container\x7b") l)
        [lit "\t\t" ++ sname ++ lit ": " ++ mname ++ lit "Module,"])
      (Msg.success (lit "Added field to Container return statement"))
      (Msg.warn (lit "Field already exists in Container return statement")) with
  | none => ⟨fs5, m1 ++ [e1, e2, e3], some msgSedFail⟩
  | some (fs6, e4) =>
  let m2 := m1 ++ [e1, e2, e3, e4, Msg.info (lit "Updating register_routes.go...")]
  match guardedStep fs6 registerRoutesPath (lit "\"" ++ rpath ++ lit "\"")
      (sedAfter importAnchor [lit "\t" ++ ralias ++ lit " \"" ++ rpath ++ lit "\""])
      (Msg.success (lit "Added import to register_routes.go"))
      (Msg.warn (lit "Import already exists in register_routes.go")) with
  | none => ⟨fs6, m2, some msgSedFail⟩
  | some (fs7, e5) =>
  match guardedStep fs7 registerRoutesPath rcall
      (sedAfter (fun l => containsSub (lit "Register routes for each module") l)
        [lit "\t\t" ++ rcall])
      (Msg.success (lit "Added route registration to register_routes.go"))
      (Msg.warn (lit "Route registration already exists in register_routes.go")) with
  | none => ⟨fs7, m2 ++ [e5], some msgSedFail⟩
  | some (fs8, e6) =>
    ⟨fs8, m2 ++ [e5, e6, Msg.success (lit "Module " ++ mname ++ lit " created successfully!")], none⟩

/-- One full create-module run (create-module.sh).  Checks in source
order: module path (lines 1863-1868), empty name (1877-1880), architecture
choice (1894-1897), pre-existing module directory (1902-1905); each aborts
with the filesystem untouched, before any directory or file is created. -/
def createModule (gen : Str → List Str) (fs0 : FS) (inp : ModuleInput) : RunResult :=
  if inp.modulePath = [] then ⟨fs0, [Msg.err msgNoModPath], some msgNoModPath⟩
  else
    let m0 : List Msg := [Msg.info (lit "Project module path: " ++ inp.modulePath)]
    if inp.moduleNameRaw = [] then ⟨fs0, m0 ++ [Msg.err msgEmptyModName], some msgEmptyModName⟩
    else
      let mname := trSpaces (lowerAll inp.moduleNameRaw)
      if inp.archChoice = lit "1" ∨ inp.archChoice = lit "2" then
        let mdir := lit "internal/" ++ mname
        if fs0.hasDir mdir then
          ⟨fs0, m0 ++ [Msg.err (msgModExists mname mdir)], some (msgModExists mname mdir)⟩
        else
          createModuleTail gen fs0 m0 inp.modulePath mname (inp.archChoice = lit "1")
      else ⟨fs0, m0 ++ [Msg.err msgBadChoice], some msgBadChoice⟩

/-! ## Identifier renderings for the naming claim

The naming claim quantifies over "strings that write the same logical
identifier" in the four casings.  These definitions render an identifier —
given as its list of word segments — into each casing; they follow the
claim's words, not the source, and are compared against the source's
pipeline. -/

/-- The lowercase letters. -/
def azChars : Str := lit "abcdefghijklmnopqrstuvwxyz"

/-- The lowercase letters and the digits. -/
def az09Chars : Str := lit "abcdefghijklmnopqrstuvwxyz0123456789"

/-- A well-formed word segment: nonempty, over lowercase letters and
digits, beginning with a letter. -/
def segOk (s : Str) : Bool :=
  match s with
  | [] => false
  | c :: cs => azChars.contains c && (c :: cs).all (fun d => az09Chars.contains d)

/-- A logical identifier: a nonempty list of well-formed segments in which
every segment before the last has at least two characters (a one-letter
capitalized segment would fuse with its successor under the code's
lowercase-to-uppercase boundary rule, so such identifiers have no faithful
Pascal rendering). -/
def goodSegs (segs : List Str) : Prop :=
  segs ≠ [] ∧ (∀ s ∈ segs, segOk s = true) ∧ (∀ s ∈ segs.dropLast, 2 ≤ s.length)

/-- snake_case rendering: segments joined with `_`. -/
def snakeR : List Str → Str
  | [] => []
  | [s] => s
  | s :: r => s ++ '_' :: snakeR r

/-- kebab-case rendering: segments joined with `-`. -/
def kebabR : List Str → Str
  | [] => []
  | [s] => s
  | s :: r => s ++ '-' :: kebabR r

/-- All segments capitalized and concatenated. -/
def capJoin (ss : List Str) : Str := (ss.map capitalize).flatten

/-- camelCase rendering: first segment as is, later segments capitalized,
no separator. -/
def camelR : List Str → Str
  | [] => []
  | s :: r => s ++ capJoin r

/-- PascalCase rendering: every segment capitalized, no separator. -/
def pascalR (segs : List Str) : Str := capJoin segs

/-! ## Concrete fixtures

A minimal project filesystem holding one DDD module `m` whose
composition-root files carry the anchors, the operator input for an entity
`P` with one `INT` field, and the results of running create-entity once
and twice on it.  A second fixture `c1fs` carries the same module with
anchor-free composition-root files. -/

/-- A project with module `m` (DDD layout), anchors present. -/
def exFs : FS :=
  ⟨[lit "internal/m", lit "internal/m/core/domain"],
   [(lit "internal/m/infra/module.go",
     [lit "type MModule struct \x7b", lit "\x7d",
      lit "return &MModule\x7b", lit "\x7d"]),
    (lit "internal/m/infra/web/routes.go",
     [lit "func RegisterRoutes(router *gin.Engine, module *infra.MModule) \x7b",
      lit "\x7d"])]⟩

/-- Operator input: module `m`, entity `P`, one field `n:INT`. -/
def exInp : EntityInput := ⟨lit "app", lit "m", lit "P", [lit "n:INT", lit "done"]⟩

/-- First create-entity run on the fixture. -/
def exRun1 : RunResult := createEntity (fun _ => []) exFs exInp

/-- Second create-entity run, on the filesystem the first run left. -/
def exRun2 : RunResult := createEntity (fun _ => []) exRun1.fs exInp

/-- The same module `m`, but with composition-root files that do not
contain the anchor text. -/
def c1fs : FS :=
  ⟨[lit "internal/m", lit "internal/m/core/domain"],
   [(lit "internal/m/infra/module.go", [lit "package infra"]),
    (lit "internal/m/infra/web/routes.go", [lit "package web"])]⟩

/-- A one-file registry for exercising one guarded insertion. -/
def c7fs : FS := ⟨[], [(lit "c.go", [lit "import (", lit ")"])]⟩

/-- The registry after the guarded import insertion ran once. -/
def c7fs1 : FS := ⟨[], [(lit "c.go", [lit "import (", lit "\tX", lit ")"])]⟩

/-- The text of a success status line, when a message is one. -/
def successText : Msg → Option Str
  | Msg.success s => some s
  | _ => none

/-! ## Helper lemmas about the filesystem and the sed model -/

theorem find?_filter_ne (files : List (Str × List Str)) (p q : Str) (h : ¬ q = p) :
    (files.filter (fun e => !(e.1 == p))).find? (fun e => e.1 == q) =
      files.find? (fun e => e.1 == q) := by
  induction files with
  | nil => rfl
  | cons e es ih =>
    rw [List.filter_cons]
    by_cases hp : e.1 = p
    · have hpb : (!(e.1 == p)) = false := by simp [hp]
      have hq : (e.1 == q) = false := by
        simp only [beq_eq_false_iff_ne, ne_eq, hp]
        exact fun hh => h hh.symm
      rw [hpb]
      simp only [Bool.false_eq_true, if_false, ih, List.find?_cons, hq]
    · have hpb : (!(e.1 == p)) = true := by simp [hp]
      rw [hpb]
      by_cases hq : e.1 = q
      · simp only [if_true, List.find?_cons, hq, beq_self_eq_true]
      · have hqb : (e.1 == q) = false := by simp [hq]
        simp only [if_true, List.find?_cons, hqb, ih]

theorem FS.read_write (fs : FS) (p : Str) (v : List Str) (q : Str) :
    (fs.write p v).read q = if q = p then some v else fs.read q := by
  by_cases h : q = p
  · subst h; simp [FS.read, FS.write]
  · have hpq : ((p, v).1 == q) = false := by
      simp only [beq_eq_false_iff_ne, ne_eq]
      exact fun hh => h hh.symm
    simp only [FS.read, FS.write, List.find?_cons, hpq, if_neg h,
      find?_filter_ne fs.files p q h]

theorem FS.write_write_same (fs : FS) (p : Str) (v : List Str) :
    (fs.write p v).write p v = fs.write p v := by
  simp [FS.write, List.filter_cons]

theorem FS.hasDir_write (fs : FS) (p : Str) (v : List Str) (d : Str) :
    (fs.write p v).hasDir d = fs.hasDir d := rfl

theorem read_emitAll (gen : Str → List Str) (fs : FS) (ps : List Str) (q : Str)
    (h : ∀ p ∈ ps, ¬ q = p) :
    (emitAll gen fs ps).read q = fs.read q := by
  induction ps generalizing fs with
  | nil => rfl
  | cons p pr ih =>
    have hq : ¬ q = p := h p (by simp)
    calc (emitAll gen (fs.write p (gen p)) pr).read q
        = (fs.write p (gen p)).read q := ih _ (fun x hx => h x (by simp [hx]))
      _ = fs.read q := by rw [FS.read_write, if_neg hq]

theorem sedAfter_noop (hit : Str → Bool) (pay : List Str) (ls : List Str)
    (h : ∀ l ∈ ls, hit l = false) : sedAfter hit pay ls = ls := by
  induction ls with
  | nil => rfl
  | cons l lr ih =>
    have hl : hit l = false := h l (by simp)
    simp [sedAfter, hl, ih (fun x hx => h x (by simp [hx]))]

theorem sedBefore_noop (hit : Str → Bool) (pay : List Str) (ls : List Str)
    (h : ∀ l ∈ ls, hit l = false) : sedBefore hit pay ls = ls := by
  induction ls with
  | nil => rfl
  | cons l lr ih =>
    have hl : hit l = false := h l (by simp)
    simp [sedBefore, hl, ih (fun x hx => h x (by simp [hx]))]

theorem mem_sedAfter_payload (hit : Str → Bool) (pay : List Str) (ls : List Str)
    (h : ∃ l ∈ ls, hit l = true) :
    ∀ x ∈ pay, x ∈ sedAfter hit pay ls := by
  induction ls with
  | nil => simp at h
  | cons l lr ih =>
    intro x hx
    by_cases hl : hit l = true
    · simp [sedAfter, hl, hx]
    · have hl' : hit l = false := by revert hl; cases hit l <;> simp
      rcases h with ⟨l₂, hl₂, hhit⟩
      rcases List.mem_cons.mp hl₂ with rfl | hmem
      · exact absurd hhit hl
      · simp only [sedAfter, hl', Bool.false_eq_true, if_false]
        exact List.mem_cons_of_mem _ (ih ⟨l₂, hmem, hhit⟩ x hx)

theorem ne_concat (c r d : Str) (h : ¬ c = d.take c.length) : ¬ (c ++ r = d) := by
  intro he
  exact h (by rw [← he]; exact (List.take_left c r).symm)

theorem dddModuleFile_not_emitted (mdir lower : Str) :
    ∀ p ∈ dddPaths mdir lower, ¬ dddModuleFile mdir = p := by
  intro p hp
  simp only [dddPaths, dddEntityPath, dddRepoIfacePath, dddRepoImplPath, dddUcPath,
    dddControllerPath, List.mem_cons, List.not_mem_nil, or_false] at hp
  simp only [dddModuleFile]
  rcases hp with rfl|rfl|rfl|rfl|rfl|rfl|rfl|rfl|rfl <;>
    (simp only [List.append_assoc];
     intro he; exact ne_concat _ _ _ (by decide) (List.append_cancel_left he).symm)

theorem dddRoutesFile_not_emitted (mdir lower : Str) :
    ∀ p ∈ dddPaths mdir lower, ¬ dddRoutesFile mdir = p := by
  intro p hp
  simp only [dddPaths, dddEntityPath, dddRepoIfacePath, dddRepoImplPath, dddUcPath,
    dddControllerPath, List.mem_cons, List.not_mem_nil, or_false] at hp
  simp only [dddRoutesFile]
  rcases hp with rfl|rfl|rfl|rfl|rfl|rfl|rfl|rfl|rfl <;>
    (simp only [List.append_assoc];
     intro he; exact ne_concat _ _ _ (by decide) (List.append_cancel_left he).symm)

theorem dddRoutesFile_ne_moduleFile (mdir : Str) :
    ¬ dddRoutesFile mdir = dddModuleFile mdir := by
  intro he
  have h2 := List.append_cancel_left
    (show mdir ++ lit "/infra/web/routes.go" = mdir ++ lit "/infra/module.go" from he)
  exact absurd h2 (by decide)

theorem fourModuleFile_not_emitted (mdir lower : Str) :
    ∀ p ∈ fourPaths mdir lower, ¬ fourModuleFile mdir = p := by
  intro p hp
  simp only [fourPaths, fourModelPath, fourRepoPath, fourServicePath, fourControllerPath,
    List.mem_cons, List.not_mem_nil, or_false] at hp
  simp only [fourModuleFile]
  rcases hp with rfl|rfl|rfl|rfl <;>
    (simp only [List.append_assoc];
     intro he; exact ne_concat _ _ _ (by decide) (List.append_cancel_left he).symm)

theorem fourRoutesFile_not_emitted (mdir lower : Str) :
    ∀ p ∈ fourPaths mdir lower, ¬ fourRoutesFile mdir = p := by
  intro p hp
  simp only [fourPaths, fourModelPath, fourRepoPath, fourServicePath, fourControllerPath,
    List.mem_cons, List.not_mem_nil, or_false] at hp
  simp only [fourRoutesFile]
  rcases hp with rfl|rfl|rfl|rfl <;>
    (simp only [List.append_assoc];
     intro he; exact ne_concat _ _ _ (by decide) (List.append_cancel_left he).symm)

theorem fourRoutesFile_ne_moduleFile (mdir : Str) :
    ¬ fourRoutesFile mdir = fourModuleFile mdir := by
  intro he
  have h2 := List.append_cancel_left
    (show mdir ++ lit "/routes.go" = mdir ++ lit "/module.go" from he)
  exact absurd h2 (by decide)

/-- The successful shape of the DDD emission/patch/report tail once both
composition-root files exist. -/
theorem runDddTail_spec (gen : Str → List Str) (fs0 : FS) (m0 : List Msg)
    (mdir lower ecap mcap : Str) (fields : List FieldSpec) (M R : List Str)
    (hM : fs0.read (dddModuleFile mdir) = some M)
    (hR : fs0.read (dddRoutesFile mdir) = some R) :
    runDddTail gen fs0 m0 mdir lower ecap mcap fields =
      ⟨((emitAll gen fs0 (dddPaths mdir lower)).write (dddModuleFile mdir)
          (modulePatchD mcap ecap lower M)).write (dddRoutesFile mdir)
          (routesPatch ecap lower R),
       m0 ++ dddEmitMsgs mdir lower ++
         [Msg.info (lit "Updating module.go..."), Msg.success (lit "Updated module.go"),
          Msg.info (lit "Updating routes.go..."), Msg.success (lit "Updated routes.go")] ++
         reportMsgs ecap lower fields,
       none⟩ := by
  have hM1 : (emitAll gen fs0 (dddPaths mdir lower)).read (dddModuleFile mdir) = some M := by
    rw [read_emitAll _ _ _ _ (dddModuleFile_not_emitted mdir lower)]; exact hM
  have hR1 : (emitAll gen fs0 (dddPaths mdir lower)).read (dddRoutesFile mdir) = some R := by
    rw [read_emitAll _ _ _ _ (dddRoutesFile_not_emitted mdir lower)]; exact hR
  have hR2 : ((emitAll gen fs0 (dddPaths mdir lower)).write (dddModuleFile mdir)
      (modulePatchD mcap ecap lower M)).read (dddRoutesFile mdir) = some R := by
    rw [FS.read_write, if_neg (dddRoutesFile_ne_moduleFile mdir)]; exact hR1
  simp only [runDddTail, patchFile, hM1, hR2, List.append_assoc, List.cons_append,
    List.nil_append]

/-- The successful shape of the 4-tier emission/patch/report tail once
both composition-root files exist. -/
theorem runFourTail_spec (gen : Str → List Str) (fs0 : FS) (m0 : List Msg)
    (mdir lower ecap mcap : Str) (fields : List FieldSpec) (M R : List Str)
    (hM : fs0.read (fourModuleFile mdir) = some M)
    (hR : fs0.read (fourRoutesFile mdir) = some R) :
    runFourTail gen fs0 m0 mdir lower ecap mcap fields =
      ⟨((emitAll gen fs0 (fourPaths mdir lower)).write (fourModuleFile mdir)
          (modulePatchF mcap ecap lower M)).write (fourRoutesFile mdir)
          (routesPatch ecap lower R),
       m0 ++ fourEmitMsgs mdir lower ++
         [Msg.info (lit "Updating module.go..."), Msg.success (lit "Updated module.go"),
          Msg.info (lit "Updating routes.go..."), Msg.success (lit "Updated routes.go")] ++
         reportMsgs ecap lower fields,
       none⟩ := by
  have hM1 : (emitAll gen fs0 (fourPaths mdir lower)).read (fourModuleFile mdir) = some M := by
    rw [read_emitAll _ _ _ _ (fourModuleFile_not_emitted mdir lower)]; exact hM
  have hR1 : (emitAll gen fs0 (fourPaths mdir lower)).read (fourRoutesFile mdir) = some R := by
    rw [read_emitAll _ _ _ _ (fourRoutesFile_not_emitted mdir lower)]; exact hR
  have hR2 : ((emitAll gen fs0 (fourPaths mdir lower)).write (fourModuleFile mdir)
      (modulePatchF mcap ecap lower M)).read (fourRoutesFile mdir) = some R := by
    rw [FS.read_write, if_neg (fourRoutesFile_ne_moduleFile mdir)]; exact hR1
  simp only [runFourTail, patchFile, hM1, hR2, List.append_assoc, List.cons_append,
    List.nil_append]

/-- Reduction of a create-entity run to its DDD tail once all precondition
checks pass. -/
theorem createEntity_ddd_run (gen : Str → List Str) (fs0 : FS) (inp : EntityInput)
    (h1 : ¬ inp.modulePath = []) (h2 : ¬ inp.moduleName = [])
    (h3 : fs0.hasDir (lit "internal/" ++ inp.moduleName) = true)
    (h4 : detectArch fs0 (lit "internal/" ++ inp.moduleName) = some Arch.ddd)
    (h5 : ¬ inp.entityName = []) (h6 : ¬ collectFields inp.fieldLines = []) :
    createEntity gen fs0 inp =
      runDddTail gen fs0 [Msg.info (lit "Project module path: " ++ inp.modulePath)]
        (lit "internal/" ++ inp.moduleName) (lowerAll inp.entityName)
        (capitalize inp.entityName) (capitalize inp.moduleName)
        (collectFields inp.fieldLines) := by
  simp only [createEntity, if_neg h1, if_neg h2, h3, if_true, h4, if_neg h5, if_neg h6]

/-- Reduction of a create-entity run to its 4-tier tail once all
precondition checks pass. -/
theorem createEntity_four_run (gen : Str → List Str) (fs0 : FS) (inp : EntityInput)
    (h1 : ¬ inp.modulePath = []) (h2 : ¬ inp.moduleName = [])
    (h3 : fs0.hasDir (lit "internal/" ++ inp.moduleName) = true)
    (h4 : detectArch fs0 (lit "internal/" ++ inp.moduleName) = some Arch.fourTier)
    (h5 : ¬ inp.entityName = []) (h6 : ¬ collectFields inp.fieldLines = []) :
    createEntity gen fs0 inp =
      runFourTail gen fs0 [Msg.info (lit "Project module path: " ++ inp.modulePath)]
        (lit "internal/" ++ inp.moduleName) (lowerAll inp.entityName)
        (capitalize inp.entityName) (capitalize inp.moduleName)
        (collectFields inp.fieldLines) := by
  simp only [createEntity, if_neg h1, if_neg h2, h3, if_true, h4, if_neg h5, if_neg h6]

/-! ## Further helper lemmas -/

theorem cut1_no_colon (l : Str) (h : ':' ∉ l) : cut1 l = l := by
  induction l with
  | nil => rfl
  | cons c cs ih =>
    have hcc : ¬ c = ':' := by
      intro hc; exact h (by simp [hc])
    simp [cut1, hcc, ih (fun hin => h (List.mem_cons_of_mem _ hin))]

theorem anyPre_eq_false_of_incompat (ps : List Str) (q t : Str)
    (hq : q.isPrefixOf t = true)
    (h : ps.all (fun p => !(p.isPrefixOf q) && !(q.isPrefixOf p)) = true) :
    anyPre ps t = false := by
  rw [anyPre, List.any_eq_false]
  intro p hp
  have h2 := (List.all_eq_true.mp h) p hp
  rw [Bool.and_eq_true, Bool.not_eq_true', Bool.not_eq_true'] at h2
  intro hpt
  have hq2 : q <+: t := List.isPrefixOf_iff_prefix.mp hq
  have hpt2 : p <+: t := List.isPrefixOf_iff_prefix.mp hpt
  rcases List.prefix_or_prefix_of_prefix hpt2 hq2 with hc | hc
  · have := List.isPrefixOf_iff_prefix.mpr hc
    rw [h2.1] at this
    exact Bool.false_ne_true this
  · have := List.isPrefixOf_iff_prefix.mpr hc
    rw [h2.2] at this
    exact Bool.false_ne_true this

/-! ## Claim C2 -/

/-- Claim C2 counterexample: for an entity with one accepted field, the
column list of the generated INSERT statement has four entries (`id`, the
field, `created_at`, `updated_at`), not the claimed N+1 = 2. -/
theorem c2_counterexample :
    (insertColumnsD [mkField (lit "name:VARCHAR(255)")]).length = 4 ∧
    ¬ ((insertColumnsD [mkField (lit "name:VARCHAR(255)")]).length =
        [mkField (lit "name:VARCHAR(255)")].length + 1) := by decide

/-- Claim C2 (amended): for a generated entity with N accepted fields, in
both architecture styles, the INSERT column list, the placeholder list,
the bound-value list, and the scan-destination lists of both read methods
all have length N+3 (identifier plus the two timestamp columns) and
identical relative ordering: each is a projection of one single traversal
of the stored field list in insertion order. -/
theorem c2_amended_alignment (fields : List FieldSpec) :
    ((insertColumnsD fields).length = fields.length + 3 ∧
     (insertPlaceholdersD fields).length = fields.length + 3 ∧
     (insertBoundD fields).length = fields.length + 3 ∧
     (findByIdScanD fields).length = fields.length + 3 ∧
     (findAllScanD fields).length = fields.length + 3 ∧
     insertColumnsD fields = (saveRowsD fields).map (fun r => r.1) ∧
     insertBoundD fields = (saveRowsD fields).map (fun r => r.2.1) ∧
     findByIdScanD fields = (saveRowsD fields).map (fun r => r.2.2) ∧
     findAllScanD fields = findByIdScanD fields) ∧
    ((insertColumnsF fields).length = fields.length + 3 ∧
     (insertPlaceholdersF fields).length = fields.length + 3 ∧
     (insertBoundF fields).length = fields.length + 3 ∧
     (findByIdScanF fields).length = fields.length + 3 ∧
     (findAllScanF fields).length = fields.length + 3 ∧
     insertColumnsF fields = (saveRowsF fields).map (fun r => r.1) ∧
     insertBoundF fields = (saveRowsF fields).map (fun r => r.2.1) ∧
     findByIdScanF fields = (saveRowsF fields).map (fun r => r.2.2) ∧
     findAllScanF fields = findByIdScanF fields) := by
  refine ⟨⟨?_, ?_, ?_, ?_, ?_, ?_, ?_, ?_, ?_⟩, ?_, ?_, ?_, ?_, ?_, ?_, ?_, ?_, ?_⟩ <;>
    simp [insertColumnsD, insertPlaceholdersD, insertBoundD, findByIdScanD, findAllScanD,
      insertColumnsF, insertPlaceholdersF, insertBoundF, findByIdScanF, findAllScanF,
      saveRowsD, saveRowD, saveRowsF, saveRowF, List.map_map, Function.comp]

/-! ## Claim C4 -/

/-- Claim C4: storage-type resolution is total and never errors: a token
with a string-family prefix resolves to `string`, an integer-family prefix
to `int`, a real-number-family prefix to `float64`, a boolean-family
prefix to `bool`, a temporal-family prefix to `time.Time`, and every other
token to `string`. -/
theorem c4_type_mapping_total (t : Str) :
    (anyPre strFam t = true → map_mysql_to_go t = lit "string") ∧
    (anyPre intFam t = true → map_mysql_to_go t = lit "int") ∧
    (anyPre fltFam t = true → map_mysql_to_go t = lit "float64") ∧
    (anyPre boolFam t = true → map_mysql_to_go t = lit "bool") ∧
    (anyPre dateFam t = true → map_mysql_to_go t = lit "time.Time") ∧
    (anyPre strFam t = false → anyPre intFam t = false → anyPre fltFam t = false →
      anyPre boolFam t = false → anyPre dateFam t = false →
      map_mysql_to_go t = lit "string") := by
  refine ⟨?_, ?_, ?_, ?_, ?_, ?_⟩
  · intro h; simp [map_mysql_to_go, h]
  · intro h
    have h2 := h
    simp only [anyPre, intFam, List.any_eq_true, List.mem_cons, List.not_mem_nil,
      or_false] at h2
    obtain ⟨p, hp, hpt⟩ := h2
    have hs : anyPre strFam t = false := by
      rcases hp with rfl|rfl|rfl|rfl|rfl <;>
        exact anyPre_eq_false_of_incompat strFam _ t hpt (by decide)
    simp [map_mysql_to_go, hs, h]
  · intro h
    have h2 := h
    simp only [anyPre, fltFam, List.any_eq_true, List.mem_cons, List.not_mem_nil,
      or_false] at h2
    obtain ⟨p, hp, hpt⟩ := h2
    have hs : anyPre strFam t = false := by
      rcases hp with rfl|rfl|rfl <;>
        exact anyPre_eq_false_of_incompat strFam _ t hpt (by decide)
    have hi : anyPre intFam t = false := by
      rcases hp with rfl|rfl|rfl <;>
        exact anyPre_eq_false_of_incompat intFam _ t hpt (by decide)
    simp [map_mysql_to_go, hs, hi, h]
  · intro h
    have h2 := h
    simp only [anyPre, boolFam, List.any_eq_true, List.mem_cons, List.not_mem_nil,
      or_false] at h2
    obtain ⟨p, hp, hpt⟩ := h2
    have hs : anyPre strFam t = false := by
      rcases hp with rfl|rfl <;>
        exact anyPre_eq_false_of_incompat strFam _ t hpt (by decide)
    have hi : anyPre intFam t = false := by
      rcases hp with rfl|rfl <;>
        exact anyPre_eq_false_of_incompat intFam _ t hpt (by decide)
    have hf : anyPre fltFam t = false := by
      rcases hp with rfl|rfl <;>
        exact anyPre_eq_false_of_incompat fltFam _ t hpt (by decide)
    simp [map_mysql_to_go, hs, hi, hf, h]
  · intro h
    have h2 := h
    simp only [anyPre, dateFam, List.any_eq_true, List.mem_cons, List.not_mem_nil,
      or_false] at h2
    obtain ⟨p, hp, hpt⟩ := h2
    have hs : anyPre strFam t = false := by
      rcases hp with rfl|rfl|rfl <;>
        exact anyPre_eq_false_of_incompat strFam _ t hpt (by decide)
    have hi : anyPre intFam t = false := by
      rcases hp with rfl|rfl|rfl <;>
        exact anyPre_eq_false_of_incompat intFam _ t hpt (by decide)
    have hf : anyPre fltFam t = false := by
      rcases hp with rfl|rfl|rfl <;>
        exact anyPre_eq_false_of_incompat fltFam _ t hpt (by decide)
    have hb : anyPre boolFam t = false := by
      rcases hp with rfl|rfl|rfl <;>
        exact anyPre_eq_false_of_incompat boolFam _ t hpt (by decide)
    simp [map_mysql_to_go, hs, hi, hf, hb, h]
  · intro hs hi hf hb hd
    simp [map_mysql_to_go, hs, hi, hf, hb, hd]

/-- Claim C4 witness: one concrete token per family, and an unrecognized
token falling back to text. -/
theorem c4_witness :
    map_mysql_to_go (lit "VARCHAR(255)") = lit "string" ∧
    map_mysql_to_go (lit "BIGINT") = lit "int" ∧
    map_mysql_to_go (lit "DECIMAL(10,2)") = lit "float64" ∧
    map_mysql_to_go (lit "BOOLEAN") = lit "bool" ∧
    map_mysql_to_go (lit "TIMESTAMP") = lit "time.Time" ∧
    map_mysql_to_go (lit "UUID") = lit "string" :=
  ⟨(c4_type_mapping_total _).1 (by decide),
   (c4_type_mapping_total _).2.1 (by decide),
   (c4_type_mapping_total _).2.2.1 (by decide),
   (c4_type_mapping_total _).2.2.2.1 (by decide),
   (c4_type_mapping_total _).2.2.2.2.1 (by decide),
   (c4_type_mapping_total _).2.2.2.2.2 (by decide) (by decide) (by decide) (by decide)
     (by decide)⟩

/-! ## Claim C6 -/

/-- Claim C6 counterexample: the line `price` has no colon, yet the
collector accepts it and appends a FieldSpec built from the whole line (no
rejection, no diagnostic): the whole line becomes the name and, uppercased,
the storage-type token. -/
theorem c6_counterexample :
    (lit "price").contains ':' = false ∧
    collectFields [lit "price", lit "done"] =
      [⟨lit "price", lit "PRICE", lit "string", lit "price", lit "Price"⟩] := by decide

/-- Claim C6 (amended): the field loop never rejects a malformed token: it
stops at `done`, silently skips empty lines, and turns every other line
into one FieldSpec — for a line without the colon separator, the whole
line is used as the name and, uppercased, as the storage-type token, and
that token is resolved through the normal prefix table like any other
token, so it may land in any type family (a colon-less `date` yields the
temporal type and `interest` the integer type), with the text type only as
the fallback for tokens no family prefix matches. -/
theorem c6_amended_collector :
    (∀ lines : List Str,
      collectFields lines =
        ((lines.takeWhile (fun l => !(l == lit "done"))).filter
            (fun l => !(l.isEmpty))).map mkField) ∧
    (∀ l : Str, l.contains ':' = false →
      mkField l = ⟨to_snake_case l, upperAll l, map_mysql_to_go (upperAll l),
        to_camel_case (to_snake_case l), capitalize (to_camel_case (to_snake_case l))⟩) ∧
    mkField (lit "date") =
      ⟨lit "date", lit "DATE", lit "time.Time", lit "date", lit "Date"⟩ ∧
    mkField (lit "interest") =
      ⟨lit "interest", lit "INTEREST", lit "int", lit "interest", lit "Interest"⟩ ∧
    mkField (lit "price") =
      ⟨lit "price", lit "PRICE", lit "string", lit "price", lit "Price"⟩ := by
  refine ⟨?_, ?_, by decide, by decide, by decide⟩
  · intro lines
    induction lines with
    | nil => rfl
    | cons l ls ih =>
      by_cases hd : l = lit "done"
      · simp [collectFields, hd, List.takeWhile_cons]
      · by_cases he : l = []
        · subst he
          have hne : ¬ ([] : Str) = lit "done" := by decide
          have hne2 : ¬ (lit "done" : Str) = [] := by decide
          simp [collectFields, hne, hne2, List.takeWhile_cons, List.filter_cons, ih]
        · simp [collectFields, hd, he, List.takeWhile_cons, List.filter_cons, ih,
            List.isEmpty_iff]
  · intro l h
    have hmem : ':' ∉ l := by simpa using h
    have h1 : cut1 l = l := cut1_no_colon l hmem
    simp [mkField, cut2, hmem, h1]

/-- Claim C6 witness: the amended characterization applied to the
colon-less line `price`. -/
theorem c6_witness :
    mkField (lit "price") = ⟨to_snake_case (lit "price"), upperAll (lit "price"),
      map_mysql_to_go (upperAll (lit "price")),
      to_camel_case (to_snake_case (lit "price")),
      capitalize (to_camel_case (to_snake_case (lit "price")))⟩ :=
  c6_amended_collector.2.1 (lit "price") (by decide)

/-! ## Claim C9 -/

/-- Claim C9 counterexample: for the operator-typed entity name
`OrderItem`, the storage table and routes use `orderitems`
(full lowercasing plus a literal `s`), but the generated file-name stem is
`orderitem` — the lowercasing without the `s`: the claim fails on the
file-name stem. -/
theorem c9_counterexample :
    dddEntityPath (lit "internal/shop") (lowerAll (lit "OrderItem")) =
      lit "internal/shop/core/domain/entities/orderitem.go" ∧
    ¬ (lit "orderitem" = lowerAll (lit "OrderItem") ++ lit "s") ∧
    (createTableLines (lowerAll (lit "OrderItem")) []).headD [] =
      lit "CREATE TABLE orderitems (" := by decide

/-- Claim C9 (amended): the storage-table name and the URL path segment of
all five routes are the full ASCII lowercasing of the exact entity name
the operator typed with a literal `s` appended — no snake_case conversion
and no English pluralization rule — while the generated file-name stems
use that same lowercasing without the `s`. -/
theorem c9_amended_naming (ename mdir : Str) (fields : List FieldSpec) :
    (createTableLines (lowerAll ename) fields).headD [] =
      lit "CREATE TABLE " ++ (lowerAll ename ++ lit "s") ++ lit " (" ∧
    endpointLines (lowerAll ename) =
      [lit "  POST   /" ++ (lowerAll ename ++ lit "s") ++ lit "          - Create new " ++
         lowerAll ename,
       lit "  GET    /" ++ (lowerAll ename ++ lit "s") ++ lit "/:id      - Get " ++
         lowerAll ename ++ lit " by ID",
       lit "  GET    /" ++ (lowerAll ename ++ lit "s") ++ lit "          - List all " ++
         lowerAll ename ++ lit "s (with pagination)",
       lit "  PUT    /" ++ (lowerAll ename ++ lit "s") ++ lit "/:id      - Update " ++
         lowerAll ename,
       lit "  DELETE /" ++ (lowerAll ename ++ lit "s") ++ lit "/:id      - Delete " ++
         lowerAll ename] ∧
    dddEntityPath mdir (lowerAll ename) =
      mdir ++ lit "/core/domain/entities/" ++ lowerAll ename ++ lit ".go" ∧
    fourModelPath mdir (lowerAll ename) =
      mdir ++ lit "/models/" ++ lowerAll ename ++ lit ".go" ∧
    lowerAll ename = ename.map Char.toLower := by
  refine ⟨?_, ?_, rfl, rfl, rfl⟩
  · simp [createTableLines, lit, List.append_assoc]
  · simp [endpointLines, lit, List.append_assoc]

/-! ## Claim C10 -/

/-- Claim C10: the entity generator never asks for an architecture style:
it selects the DDD template family exactly when the module has a
`core/domain` subdirectory, otherwise the 4-tier family exactly when it
has a `models` subdirectory, and otherwise aborts — identically for every
entity name and field input, with the filesystem untouched. -/
theorem c10_arch_detection (gen : Str → List Str) (fs0 : FS) (mp mname : Str)
    (h1 : ¬ mp = []) (h2 : ¬ mname = [])
    (h3 : fs0.hasDir (lit "internal/" ++ mname) = true) :
    (detectArch fs0 (lit "internal/" ++ mname) = some Arch.ddd ↔
      fs0.hasDir (lit "internal/" ++ mname ++ lit "/core/domain") = true) ∧
    (fs0.hasDir (lit "internal/" ++ mname ++ lit "/core/domain") = false →
      (detectArch fs0 (lit "internal/" ++ mname) = some Arch.fourTier ↔
        fs0.hasDir (lit "internal/" ++ mname ++ lit "/models") = true)) ∧
    (detectArch fs0 (lit "internal/" ++ mname) = none →
      ∀ ename fl, createEntity gen fs0 ⟨mp, mname, ename, fl⟩ =
        ⟨fs0, [Msg.info (lit "Project module path: " ++ mp), Msg.err msgNoArch],
         some msgNoArch⟩) := by
  simp only [List.append_assoc]
  refine ⟨⟨?_, ?_⟩, ?_, ?_⟩
  · intro h
    by_cases hc : fs0.hasDir (lit "internal/" ++ (mname ++ lit "/core/domain")) = true
    · exact hc
    · have hc2 : fs0.hasDir (lit "internal/" ++ (mname ++ lit "/core/domain")) = false := by
        revert hc
        cases fs0.hasDir (lit "internal/" ++ (mname ++ lit "/core/domain")) <;> simp
      cases hm : fs0.hasDir (lit "internal/" ++ (mname ++ lit "/models")) <;>
        simp [detectArch, List.append_assoc, hc2, hm] at h
  · intro h
    simp [detectArch, List.append_assoc, h]
  · intro hc
    constructor
    · intro h
      by_cases hm : fs0.hasDir (lit "internal/" ++ (mname ++ lit "/models")) = true
      · exact hm
      · have hm2 : fs0.hasDir (lit "internal/" ++ (mname ++ lit "/models")) = false := by
          revert hm
          cases fs0.hasDir (lit "internal/" ++ (mname ++ lit "/models")) <;> simp
        simp [detectArch, List.append_assoc, hc, hm2] at h
    · intro h
      simp [detectArch, List.append_assoc, hc, h]
  · intro h ename fl
    simp [createEntity, h1, h2, h3, h]

/-- Claim C10 witness: on a module holding `core/domain`, detection picks
DDD; on a module with neither marker directory, the run aborts untouched
for an arbitrary entity input. -/
theorem c10_witness :
    detectArch (FS.mk [lit "internal/x", lit "internal/x/core/domain"] [])
        (lit "internal/" ++ lit "x") = some Arch.ddd ∧
    createEntity (fun _ => []) (FS.mk [lit "internal/x"] [])
        ⟨lit "app", lit "x", lit "P", [lit "n:INT", lit "done"]⟩ =
      ⟨FS.mk [lit "internal/x"] [],
       [Msg.info (lit "Project module path: " ++ lit "app"), Msg.err msgNoArch],
       some msgNoArch⟩ :=
  ⟨(c10_arch_detection (fun _ => []) _ (lit "app") (lit "x") (by decide) (by decide)
      (by decide)).1.mpr (by decide),
   (c10_arch_detection (fun _ => []) _ (lit "app") (lit "x") (by decide) (by decide)
      (by decide)).2.2 (by decide) (lit "P") [lit "n:INT", lit "done"]⟩

/-! ## Claim C3 -/

/-- Claim C3 counterexample: running the entity generator twice with the
same module and entity name does not abort the second invocation — the
second run also exits zero, and it changes the filesystem again (the
wiring patches are re-applied). -/
theorem c3_counterexample :
    exRun1.exit = none ∧ exRun2.exit = none ∧ ¬ exRun2.fs = exRun1.fs := by decide

/-- Claim C3 (amended): the precondition failures each generator checks
for — empty names, missing module, undetectable architecture, zero
collected fields for create-entity; empty or invalid inputs and an
already-existing module directory for create-module — are detected before
any file is written and abort with the filesystem untouched.  Re-invoking
entity generation for an already-generated entity is not such a failure:
the entity generator performs no existence check (see the
counterexample). -/
theorem c3_amended_preconditions :
    (∀ (gen : Str → List Str) (fs0 : FS) (inp : EntityInput),
      (inp.modulePath = [] ∨ inp.moduleName = [] ∨
        fs0.hasDir (lit "internal/" ++ inp.moduleName) = false ∨
        detectArch fs0 (lit "internal/" ++ inp.moduleName) = none ∨
        inp.entityName = [] ∨ collectFields inp.fieldLines = []) →
      (createEntity gen fs0 inp).fs = fs0 ∧
      (createEntity gen fs0 inp).exit.isSome = true) ∧
    (∀ (gen : Str → List Str) (fs0 : FS) (minp : ModuleInput),
      (minp.modulePath = [] ∨ minp.moduleNameRaw = [] ∨
        (¬ minp.archChoice = lit "1" ∧ ¬ minp.archChoice = lit "2") ∨
        fs0.hasDir (lit "internal/" ++ trSpaces (lowerAll minp.moduleNameRaw)) = true) →
      (createModule gen fs0 minp).fs = fs0 ∧
      (createModule gen fs0 minp).exit.isSome = true) := by
  constructor
  · intro gen fs0 inp hpre
    by_cases h1 : inp.modulePath = []
    · constructor <;> simp [createEntity, h1]
    · by_cases h2 : inp.moduleName = []
      · constructor <;> simp [createEntity, h1, h2]
      · by_cases h3 : fs0.hasDir (lit "internal/" ++ inp.moduleName) = true
        · cases h4 : detectArch fs0 (lit "internal/" ++ inp.moduleName) with
          | none => constructor <;> simp [createEntity, h1, h2, h3, h4]
          | some a =>
            by_cases h5 : inp.entityName = []
            · cases a <;> (constructor <;> simp [createEntity, h1, h2, h3, h4, h5])
            · by_cases h6 : collectFields inp.fieldLines = []
              · cases a <;> (constructor <;> simp [createEntity, h1, h2, h3, h4, h5, h6])
              · rcases hpre with h|h|h|h|h|h
                · exact absurd h h1
                · exact absurd h h2
                · rw [h3] at h; exact absurd h (by simp)
                · rw [h4] at h; exact absurd h (by simp)
                · exact absurd h h5
                · exact absurd h h6
        · have h3b : fs0.hasDir (lit "internal/" ++ inp.moduleName) = false := by
            revert h3; cases fs0.hasDir (lit "internal/" ++ inp.moduleName) <;> simp
          constructor <;> simp [createEntity, h1, h2, h3b]
  · intro gen fs0 minp hpre
    by_cases h1 : minp.modulePath = []
    · constructor <;> simp [createModule, h1]
    · by_cases h2 : minp.moduleNameRaw = []
      · constructor <;> simp [createModule, h1, h2]
      · by_cases h3 : minp.archChoice = lit "1" ∨ minp.archChoice = lit "2"
        · by_cases h4 : fs0.hasDir (lit "internal/" ++ trSpaces (lowerAll minp.moduleNameRaw)) = true
          · constructor <;> simp [createModule, h1, h2, h3, h4]
          · have h4b : fs0.hasDir (lit "internal/" ++ trSpaces (lowerAll minp.moduleNameRaw)) = false := by
              revert h4
              cases fs0.hasDir (lit "internal/" ++ trSpaces (lowerAll minp.moduleNameRaw)) <;> simp
            rcases hpre with h|h|h|h
            · exact absurd h h1
            · exact absurd h h2
            · rcases h3 with h3|h3
              · exact absurd h3 h.1
              · exact absurd h3 h.2
            · rw [h4b] at h; exact absurd h (by simp)
        · constructor <;> simp [createModule, h1, h2, h3]

/-- Claim C3 witness: with the module present but zero fields collected
(the operator types `done` immediately), the run aborts with the
filesystem untouched. -/
theorem c3_witness :
    (createEntity (fun _ => []) exFs ⟨lit "app", lit "m", lit "P", [lit "done"]⟩).fs = exFs ∧
    (createEntity (fun _ => []) exFs
        ⟨lit "app", lit "m", lit "P", [lit "done"]⟩).exit.isSome = true :=
  c3_amended_preconditions.1 (fun _ => []) exFs ⟨lit "app", lit "m", lit "P", [lit "done"]⟩
    (Or.inr (Or.inr (Or.inr (Or.inr (Or.inr (by decide))))))

/-! ## Claim C7 -/

/-- Claim C7 counterexample: the entity generator's route-table insertion
has no idempotency guard: after one run the wiring comment occurs once in
`routes.go`; after re-running the generator for the same entity it occurs
twice — the import/wiring guard exists only in the module generator. -/
theorem c7_counterexample :
    (((exRun1.fs.read (dddRoutesFile (lit "internal/m"))).getD []).count
        (lit "\t// P routes") = 1) ∧
    (((exRun2.fs.read (dddRoutesFile (lit "internal/m"))).getD []).count
        (lit "\t// P routes") = 2) := by decide

/-- Claim C7 (amended): the module generator's guarded insertions
(container registry and route registration) check for the guard text
before inserting and skip with a warning when it is already present;
consequently applying one guarded insertion twice yields the same file as
applying it once, provided the inserted payload itself contains the guard
text — while the entity generator's wiring insertions carry no such guard
and duplicate on a re-run (see the counterexample). -/
theorem c7_amended_guarded_idempotent
    (fs : FS) (p g : Str) (hit : Str → Bool) (payload : List Str) (okM warnM : Msg)
    (hg : payload.any (fun l => containsSub g l) = true)
    (fs1 : FS) (m1 : Msg)
    (h : guardedStep fs p g (sedAfter hit payload) okM warnM = some (fs1, m1)) :
    ∃ m2, guardedStep fs1 p g (sedAfter hit payload) okM warnM = some (fs1, m2) := by
  cases hread : fs.read p with
  | none => simp [guardedStep, hread] at h
  | some ls =>
    simp only [guardedStep, hread] at h
    by_cases hgd : ls.any (fun l => containsSub g l) = true
    · rw [if_pos hgd] at h
      have hfs : fs1 = fs := by cases h; rfl
      subst hfs
      exact ⟨warnM, by simp only [guardedStep, hread, if_pos hgd]⟩
    · rw [if_neg hgd] at h
      have hfs : fs1 = fs.write p (sedAfter hit payload ls) := by cases h; rfl
      subst hfs
      have hr : (fs.write p (sedAfter hit payload ls)).read p =
          some (sedAfter hit payload ls) := by
        rw [FS.read_write, if_pos rfl]
      by_cases hany : ∃ l ∈ ls, hit l = true
      · obtain ⟨x, hx, hgx⟩ := List.any_eq_true.mp hg
        have hmem := mem_sedAfter_payload hit payload ls hany x hx
        have hg2 : (sedAfter hit payload ls).any (fun l => containsSub g l) = true :=
          List.any_eq_true.mpr ⟨x, hmem, hgx⟩
        exact ⟨warnM, by simp only [guardedStep, hr, if_pos hg2]⟩
      · have hnone : ∀ l ∈ ls, hit l = false := by
          intro l hl
          by_contra hh
          exact hany ⟨l, hl, by revert hh; cases hit l <;> simp⟩
        have hsed : sedAfter hit payload ls = ls := sedAfter_noop _ _ _ hnone
        rw [hsed] at hr
        refine ⟨okM, ?_⟩
        simp only [guardedStep, hsed, hr, if_neg hgd, FS.write_write_same]

/-- Claim C7 witness: the guarded import insertion of create-module,
applied a second time to the file it already patched, changes nothing. -/
theorem c7_witness :
    ∃ m2, guardedStep c7fs1 (lit "c.go") (lit "X") (sedAfter importAnchor [lit "\tX"])
      (Msg.success []) (Msg.warn []) = some (c7fs1, m2) :=
  c7_amended_guarded_idempotent c7fs (lit "c.go") (lit "X") importAnchor [lit "\tX"]
    (Msg.success []) (Msg.warn []) (by decide) c7fs1 (Msg.success []) (by decide)

/-! ## Claim C1 -/

/-- Claim C1: when a patch target's anchor pattern does not occur as
literal text in the target composition-root file, applying the patch
leaves that file's contents unchanged, the run emits no error diagnostic,
still terminates with exit code zero, and reports success — the unmatched
anchor is a silent no-op.  Covered for the entity generator's module
registry and route table in both architecture styles, and for the module
generator's guarded insertions into the container/route-registration
files. -/
theorem c1_unmatched_anchor_silent_noop :
    (∀ (gen : Str → List Str) (fs0 : FS) (inp : EntityInput) (M R : List Str),
      ¬ inp.modulePath = [] → ¬ inp.moduleName = [] →
      fs0.hasDir (lit "internal/" ++ inp.moduleName) = true →
      detectArch fs0 (lit "internal/" ++ inp.moduleName) = some Arch.ddd →
      ¬ inp.entityName = [] → ¬ collectFields inp.fieldLines = [] →
      fs0.read (dddModuleFile (lit "internal/" ++ inp.moduleName)) = some M →
      fs0.read (dddRoutesFile (lit "internal/" ++ inp.moduleName)) = some R →
      (∀ l ∈ M, containsSub (modStructPat (capitalize inp.moduleName)) l = false) →
      (∀ l ∈ M, containsSub (modRetPat (capitalize inp.moduleName)) l = false) →
      (∀ l ∈ R, containsSub routesPat l = false) →
      (createEntity gen fs0 inp).exit = none ∧
      (createEntity gen fs0 inp).fs.read
          (dddModuleFile (lit "internal/" ++ inp.moduleName)) = some M ∧
      (createEntity gen fs0 inp).fs.read
          (dddRoutesFile (lit "internal/" ++ inp.moduleName)) = some R ∧
      (∀ s, ¬ Msg.err s ∈ (createEntity gen fs0 inp).msgs) ∧
      Msg.success (lit "Updated module.go") ∈ (createEntity gen fs0 inp).msgs ∧
      Msg.success (lit "Updated routes.go") ∈ (createEntity gen fs0 inp).msgs ∧
      Msg.success (lit "Entity " ++ capitalize inp.entityName ++
        lit " created successfully!") ∈ (createEntity gen fs0 inp).msgs) ∧
    (∀ (gen : Str → List Str) (fs0 : FS) (inp : EntityInput) (M R : List Str),
      ¬ inp.modulePath = [] → ¬ inp.moduleName = [] →
      fs0.hasDir (lit "internal/" ++ inp.moduleName) = true →
      detectArch fs0 (lit "internal/" ++ inp.moduleName) = some Arch.fourTier →
      ¬ inp.entityName = [] → ¬ collectFields inp.fieldLines = [] →
      fs0.read (fourModuleFile (lit "internal/" ++ inp.moduleName)) = some M →
      fs0.read (fourRoutesFile (lit "internal/" ++ inp.moduleName)) = some R →
      (∀ l ∈ M, containsSub (modStructPat (capitalize inp.moduleName)) l = false) →
      (∀ l ∈ M, containsSub (modRetPat (capitalize inp.moduleName)) l = false) →
      (∀ l ∈ R, containsSub routesPat l = false) →
      (createEntity gen fs0 inp).exit = none ∧
      (createEntity gen fs0 inp).fs.read
          (fourModuleFile (lit "internal/" ++ inp.moduleName)) = some M ∧
      (createEntity gen fs0 inp).fs.read
          (fourRoutesFile (lit "internal/" ++ inp.moduleName)) = some R ∧
      (∀ s, ¬ Msg.err s ∈ (createEntity gen fs0 inp).msgs) ∧
      Msg.success (lit "Updated module.go") ∈ (createEntity gen fs0 inp).msgs ∧
      Msg.success (lit "Updated routes.go") ∈ (createEntity gen fs0 inp).msgs) ∧
    (∀ (fs : FS) (p g : Str) (hit : Str → Bool) (payload ls : List Str) (okM warnM : Msg),
      fs.read p = some ls →
      (∀ l ∈ ls, hit l = false) →
      (∀ l ∈ ls, containsSub g l = false) →
      guardedStep fs p g (sedAfter hit payload) okM warnM = some (fs.write p ls, okM) ∧
      (fs.write p ls).read p = some ls) := by
  refine ⟨?_, ?_, ?_⟩
  · intro gen fs0 inp M R h1 h2 h3 h4 h5 h6 hM hR hMa hMb hRa
    have e1 := sedAfter_noop (fun l => containsSub (modStructPat (capitalize inp.moduleName)) l)
      (modStructPayload (capitalize inp.entityName)) M hMa
    have e2 := sedBefore_noop (fun l => containsSub (modRetPat (capitalize inp.moduleName)) l)
      (modWiringD (capitalize inp.entityName) (lowerAll inp.entityName)) M hMb
    have e3 := sedAfter_noop (fun l => containsSub (modRetPat (capitalize inp.moduleName)) l)
      (modRetPayload (capitalize inp.entityName) (lowerAll inp.entityName)) M hMb
    have hMod : modulePatchD (capitalize inp.moduleName) (capitalize inp.entityName)
        (lowerAll inp.entityName) M = M := by
      rw [modulePatchD, e1, e2, e3]
    have hRts : routesPatch (capitalize inp.entityName) (lowerAll inp.entityName) R = R :=
      sedAfter_noop _ _ R hRa
    rw [createEntity_ddd_run gen fs0 inp h1 h2 h3 h4 h5 h6,
      runDddTail_spec gen fs0 _ _ _ _ _ _ M R hM hR, hMod, hRts]
    refine ⟨rfl, ?_, ?_, ?_, ?_, ?_, ?_⟩
    · rw [FS.read_write,
        if_neg (fun hh => dddRoutesFile_ne_moduleFile (lit "internal/" ++ inp.moduleName)
          hh.symm),
        FS.read_write, if_pos rfl]
    · rw [FS.read_write, if_pos rfl]
    · intro s hs
      simp [dddEmitMsgs, reportMsgs, createTableLines, endpointLines] at hs
    · simp [dddEmitMsgs, reportMsgs]
    · simp [dddEmitMsgs, reportMsgs]
    · simp [dddEmitMsgs, reportMsgs]
  · intro gen fs0 inp M R h1 h2 h3 h4 h5 h6 hM hR hMa hMb hRa
    have e1 := sedAfter_noop (fun l => containsSub (modStructPat (capitalize inp.moduleName)) l)
      (modStructPayload (capitalize inp.entityName)) M hMa
    have e2 := sedBefore_noop (fun l => containsSub (modRetPat (capitalize inp.moduleName)) l)
      (modWiringF (capitalize inp.entityName) (lowerAll inp.entityName)) M hMb
    have e3 := sedAfter_noop (fun l => containsSub (modRetPat (capitalize inp.moduleName)) l)
      (modRetPayload (capitalize inp.entityName) (lowerAll inp.entityName)) M hMb
    have hMod : modulePatchF (capitalize inp.moduleName) (capitalize inp.entityName)
        (lowerAll inp.entityName) M = M := by
      rw [modulePatchF, e1, e2, e3]
    have hRts : routesPatch (capitalize inp.entityName) (lowerAll inp.entityName) R = R :=
      sedAfter_noop _ _ R hRa
    rw [createEntity_four_run gen fs0 inp h1 h2 h3 h4 h5 h6,
      runFourTail_spec gen fs0 _ _ _ _ _ _ M R hM hR, hMod, hRts]
    refine ⟨rfl, ?_, ?_, ?_, ?_, ?_⟩
    · rw [FS.read_write,
        if_neg (fun hh => fourRoutesFile_ne_moduleFile (lit "internal/" ++ inp.moduleName)
          hh.symm),
        FS.read_write, if_pos rfl]
    · rw [FS.read_write, if_pos rfl]
    · intro s hs
      simp [fourEmitMsgs, reportMsgs, createTableLines, endpointLines] at hs
    · simp [fourEmitMsgs, reportMsgs]
    · simp [fourEmitMsgs, reportMsgs]
  · intro fs p g hit payload ls okM warnM hread hhit hguard
    have hgd : ls.any (fun l => containsSub g l) = false := by
      rw [List.any_eq_false]
      intro l hl
      simp [hguard l hl]
    have hsed : sedAfter hit payload ls = ls := sedAfter_noop _ _ _ hhit
    constructor
    · simp only [guardedStep, hread, hsed, hgd, Bool.false_eq_true, if_false]
    · rw [FS.read_write, if_pos rfl]

/-- Claim C1 witness: a DDD module whose composition-root files lack the
anchors; the run exits zero and both files keep their exact contents. -/
theorem c1_witness :
    (createEntity (fun _ => []) c1fs exInp).exit = none ∧
    (createEntity (fun _ => []) c1fs exInp).fs.read
        (dddModuleFile (lit "internal/" ++ lit "m")) = some [lit "package infra"] := by
  have h := c1_unmatched_anchor_silent_noop.1 (fun _ => []) c1fs exInp
    [lit "package infra"] [lit "package web"]
    (by decide) (by decide) (by decide) (by decide) (by decide) (by decide)
    (by decide) (by decide) (by decide) (by decide) (by decide)
  exact ⟨h.1, h.2.1⟩

/-! ## Claim C8 -/

/-- Claim C8: after successful generation the reporter prints, in order,
one status line per created file (the emission-phase success lines pair
one-to-one, in creation order, with the written paths), then — last in the
message stream — the report: a CREATE TABLE statement whose column list
follows the same field-order traversal used by the emitted INSERT
statement with the three implicit columns always included (so 2 declared
fields give exactly 5 columns), and a list of exactly five REST-style
operations with the fixed verb/path pattern. -/
theorem c8_report_contract (gen : Str → List Str) (fs0 : FS) (inp : EntityInput)
    (M R : List Str)
    (h1 : ¬ inp.modulePath = []) (h2 : ¬ inp.moduleName = [])
    (h3 : fs0.hasDir (lit "internal/" ++ inp.moduleName) = true)
    (h4 : detectArch fs0 (lit "internal/" ++ inp.moduleName) = some Arch.ddd)
    (h5 : ¬ inp.entityName = []) (h6 : ¬ collectFields inp.fieldLines = [])
    (hM : fs0.read (dddModuleFile (lit "internal/" ++ inp.moduleName)) = some M)
    (hR : fs0.read (dddRoutesFile (lit "internal/" ++ inp.moduleName)) = some R) :
    (createEntity gen fs0 inp).msgs =
      [Msg.info (lit "Project module path: " ++ inp.modulePath)] ++
      dddEmitMsgs (lit "internal/" ++ inp.moduleName) (lowerAll inp.entityName) ++
      [Msg.info (lit "Updating module.go..."), Msg.success (lit "Updated module.go"),
       Msg.info (lit "Updating routes.go..."), Msg.success (lit "Updated routes.go")] ++
      reportMsgs (capitalize inp.entityName) (lowerAll inp.entityName)
        (collectFields inp.fieldLines) ∧
    List.Forall₂ (fun s p => ∃ pre, s = pre ++ p)
      ((dddEmitMsgs (lit "internal/" ++ inp.moduleName)
          (lowerAll inp.entityName)).filterMap successText)
      (dddPaths (lit "internal/" ++ inp.moduleName) (lowerAll inp.entityName)) ∧
    createTableColumns (collectFields inp.fieldLines) =
      insertColumnsD (collectFields inp.fieldLines) ∧
    (createTableColumns (collectFields inp.fieldLines)).length =
      (collectFields inp.fieldLines).length + 3 ∧
    ((collectFields inp.fieldLines).length = 2 →
      (createTableColumns (collectFields inp.fieldLines)).length = 5) ∧
    (endpointLines (lowerAll inp.entityName)).length = 5 ∧
    reportMsgs (capitalize inp.entityName) (lowerAll inp.entityName)
        (collectFields inp.fieldLines) =
      [Msg.plain [],
       Msg.success (lit "Entity " ++ capitalize inp.entityName ++
         lit " created successfully!"),
       Msg.plain [], Msg.info (lit "SQL to create the table:"), Msg.plain []] ++
      (createTableLines (lowerAll inp.entityName)
          (collectFields inp.fieldLines)).map Msg.plain ++
      [Msg.plain [], Msg.info (lit "API Endpoints created:")] ++
      (endpointLines (lowerAll inp.entityName)).map Msg.plain ++
      [Msg.plain []] := by
  refine ⟨?_, ?_, rfl, ?_, ?_, rfl, ?_⟩
  · rw [createEntity_ddd_run gen fs0 inp h1 h2 h3 h4 h5 h6,
      runDddTail_spec gen fs0 _ _ _ _ _ _ M R hM hR]
  · have hfm : ((dddEmitMsgs (lit "internal/" ++ inp.moduleName)
        (lowerAll inp.entityName)).filterMap successText) =
      [lit "Created entity: " ++
         dddEntityPath (lit "internal/" ++ inp.moduleName) (lowerAll inp.entityName),
       lit "Created repository interface: " ++
         dddRepoIfacePath (lit "internal/" ++ inp.moduleName) (lowerAll inp.entityName),
       lit "Created repository implementation: " ++
         dddRepoImplPath (lit "internal/" ++ inp.moduleName) (lowerAll inp.entityName),
       lit "Created use case: " ++
         dddUcPath (lit "create_") (lit "internal/" ++ inp.moduleName)
           (lowerAll inp.entityName),
       lit "Created use case: " ++
         dddUcPath (lit "get_") (lit "internal/" ++ inp.moduleName)
           (lowerAll inp.entityName),
       lit "Created use case: " ++
         dddUcPath (lit "list_") (lit "internal/" ++ inp.moduleName)
           (lowerAll inp.entityName),
       lit "Created use case: " ++
         dddUcPath (lit "update_") (lit "internal/" ++ inp.moduleName)
           (lowerAll inp.entityName),
       lit "Created use case: " ++
         dddUcPath (lit "delete_") (lit "internal/" ++ inp.moduleName)
           (lowerAll inp.entityName),
       lit "Created controller: " ++
         dddControllerPath (lit "internal/" ++ inp.moduleName)
           (lowerAll inp.entityName)] := rfl
    rw [hfm]
    simp only [dddPaths]
    exact .cons ⟨_, rfl⟩ (.cons ⟨_, rfl⟩ (.cons ⟨_, rfl⟩ (.cons ⟨_, rfl⟩ (.cons ⟨_, rfl⟩
      (.cons ⟨_, rfl⟩ (.cons ⟨_, rfl⟩ (.cons ⟨_, rfl⟩ (.cons ⟨_, rfl⟩ .nil))))))))
  · simp [createTableColumns]
  · intro h
    simp [createTableColumns, h]
  · rfl

/-- Claim C8 witness: the report contract applied to the concrete fixture
run. -/
theorem c8_witness :
    (createTableColumns (collectFields exInp.fieldLines)).length =
      (collectFields exInp.fieldLines).length + 3 ∧
    (endpointLines (lowerAll exInp.entityName)).length = 5 := by
  have h := c8_report_contract (fun _ => []) exFs exInp
    [lit "type MModule struct \x7b", lit "\x7d", lit "return &MModule\x7b", lit "\x7d"]
    [lit "func RegisterRoutes(router *gin.Engine, module *infra.MModule) \x7b",
     lit "\x7d"]
    (by decide) (by decide) (by decide) (by decide) (by decide) (by decide)
    (by decide) (by decide)
  exact ⟨h.2.2.2.1, h.2.2.2.2.2.1⟩

/-! ## Character-level facts for the naming claim -/

theorem az09_not_upper : ∀ c ∈ az09Chars, c.isUpper = false := by
  intro c hc
  have h := List.all_eq_true.mp
    (show az09Chars.all (fun c => !c.isUpper) = true by decide) c hc
  simpa using h

theorem az09_toLower : ∀ c ∈ az09Chars, c.toLower = c := by
  intro c hc
  have h := List.all_eq_true.mp
    (show az09Chars.all (fun c => c.toLower == c) = true by decide) c hc
  simpa using h

theorem az09_lower_digit : ∀ c ∈ az09Chars, (c.isLower || c.isDigit) = true := by
  intro c hc
  exact List.all_eq_true.mp
    (show az09Chars.all (fun c => c.isLower || c.isDigit) = true by decide) c hc

theorem az_toUpper_isUpper : ∀ c ∈ azChars, (c.toUpper).isUpper = true := by
  intro c hc
  exact List.all_eq_true.mp
    (show azChars.all (fun c => (c.toUpper).isUpper) = true by decide) c hc

theorem az_toUpper_not_ld :
    ∀ c ∈ azChars, ((c.toUpper).isLower || (c.toUpper).isDigit) = false := by
  intro c hc
  have h := List.all_eq_true.mp
    (show azChars.all (fun c => !((c.toUpper).isLower || (c.toUpper).isDigit)) = true
      by decide) c hc
  simpa using h

theorem az_toUpper_toLower : ∀ c ∈ azChars, (c.toUpper).toLower = c := by
  intro c hc
  have h := List.all_eq_true.mp
    (show azChars.all (fun c => (c.toUpper).toLower == c) = true by decide) c hc
  simpa using h

theorem segOk_chars (s : Str) (h : segOk s = true) : ∀ c ∈ s, c ∈ az09Chars := by
  cases s with
  | nil => simp [segOk] at h
  | cons c cs =>
    intro d hd
    rw [segOk, Bool.and_eq_true] at h
    have h2 := List.all_eq_true.mp h.2 d hd
    simpa using h2

theorem segOk_head (s : Str) (c : Char) (cs : Str) (hs : s = c :: cs)
    (h : segOk s = true) : c ∈ azChars := by
  subst hs
  rw [segOk, Bool.and_eq_true] at h
  simpa using h.1

theorem getLastD_mem (l : Str) (d : Char) (h : l ≠ []) : l.getLastD d ∈ l := by
  induction l generalizing d with
  | nil => exact absurd rfl h
  | cons a t ih =>
    cases t with
    | nil => simp [List.getLastD]
    | cons b u =>
      rw [List.getLastD_cons]
      exact List.mem_cons_of_mem _ (ih a (by simp))

/-! ## Structural facts about the sed substitution -/

theorem insUnd_no_upper (s : Str) (h : ∀ c ∈ s, c.isUpper = false) : insUnd s = s := by
  induction s with
  | nil => rfl
  | cons a t ih =>
    cases t with
    | nil => rfl
    | cons b r =>
      have hb : b.isUpper = false := h b (by simp)
      have hn : needU a b = false := by simp [needU, hb]
      have ht : insUnd (b :: r) = b :: r :=
        ih (fun c hc => h c (List.mem_cons_of_mem _ hc))
      simp [insUnd, hn, ht]

theorem insUnd_cons_first (a : Char) (t : Str) (h : (a.isLower || a.isDigit) = false) :
    insUnd (a :: t) = a :: insUnd t := by
  cases t with
  | nil => rfl
  | cons b r => simp [insUnd, needU, h]

theorem insUnd_append (x : Str) (b : Char) (r : Str) (hx : x ≠ []) :
    insUnd (x ++ b :: r) =
      insUnd x ++ (if needU (x.getLastD ' ') b = true then '_' :: insUnd (b :: r)
                   else insUnd (b :: r)) := by
  induction x with
  | nil => exact absurd rfl hx
  | cons a t ih =>
    cases t with
    | nil =>
      by_cases h : needU a b = true <;>
        simp [insUnd, h, List.getLastD]
    | cons c u =>
      have ih2 := ih (by simp)
      simp only [List.cons_append] at ih2 ⊢
      by_cases h : needU a c = true <;>
        simp [insUnd, h, ih2, List.getLastD_cons, List.append_assoc]

theorem insUnd_capJoin (ss : List Str) : ∀ (x : Str), x ≠ [] → insUnd x = x →
    ((x.getLastD ' ').isLower || (x.getLastD ' ').isDigit) = true →
    (∀ s ∈ ss, segOk s = true) → (∀ s ∈ ss.dropLast, 2 ≤ s.length) →
    insUnd (x ++ capJoin ss) = x ++ (ss.map (fun s => '_' :: capitalize s)).flatten := by
  induction ss with
  | nil =>
    intro x hx hxI hxL hss hlen
    simp [capJoin, hxI]
  | cons s ss ih =>
    intro x hx hxI hxL hss hlen
    obtain ⟨c, cs, rfl⟩ : ∃ c cs, s = c :: cs := by
      cases s with
      | nil => exact absurd (hss [] (by simp)) (by simp [segOk])
      | cons c cs => exact ⟨c, cs, rfl⟩
    have hsOk : segOk (c :: cs) = true := hss (c :: cs) (by simp)
    have hcmem : c ∈ azChars := segOk_head _ c cs rfl hsOk
    have hmem09 : ∀ d ∈ c :: cs, d ∈ az09Chars := segOk_chars _ hsOk
    have hcap : capJoin ((c :: cs) :: ss) = (c.toUpper :: cs) ++ capJoin ss := by
      simp [capJoin, capitalize]
    rw [hcap]
    have hgrp : x ++ ((c.toUpper :: cs) ++ capJoin ss) =
        x ++ c.toUpper :: (cs ++ capJoin ss) := by simp
    rw [hgrp, insUnd_append x c.toUpper (cs ++ capJoin ss) hx]
    have hneed : needU (x.getLastD ' ') c.toUpper = true := by
      rw [needU, hxL, az_toUpper_isUpper c hcmem]; rfl
    rw [if_pos hneed, hxI,
      insUnd_cons_first c.toUpper (cs ++ capJoin ss) (az_toUpper_not_ld c hcmem)]
    cases ss with
    | nil =>
      have hcs : insUnd cs = cs := insUnd_no_upper cs (fun d hd =>
        az09_not_upper d (hmem09 d (List.mem_cons_of_mem _ hd)))
      simp [capJoin, hcs, capitalize]
    | cons s2 ss2 =>
      have hlen2 : 2 ≤ (c :: cs).length := by
        apply hlen
        rw [List.dropLast_cons₂]
        simp
      obtain ⟨d, ds, rfl⟩ : ∃ d ds, cs = d :: ds := by
        cases cs with
        | nil => simp at hlen2
        | cons d ds => exact ⟨d, ds, rfl⟩
      have hxI2 : insUnd (d :: ds) = d :: ds := insUnd_no_upper _ (fun e he =>
        az09_not_upper e (hmem09 e (List.mem_cons_of_mem _ he)))
      have hxL2 : (((d :: ds).getLastD ' ').isLower ||
          ((d :: ds).getLastD ' ').isDigit) = true :=
        az09_lower_digit _ (hmem09 _ (List.mem_cons_of_mem _
          (getLastD_mem (d :: ds) ' ' (by simp))))
      have hok2 : ∀ t ∈ s2 :: ss2, segOk t = true := fun t ht =>
        hss t (List.mem_cons_of_mem _ ht)
      have hlen3 : ∀ t ∈ (s2 :: ss2).dropLast, 2 ≤ t.length := by
        intro t ht
        apply hlen
        rw [List.dropLast_cons₂]
        exact List.mem_cons_of_mem _ ht
      rw [ih (d :: ds) (by simp) hxI2 hxL2 hok2 hlen3]
      simp [capitalize, List.append_assoc]

theorem snakeR_cons (s : Str) (ss : List Str) :
    snakeR (s :: ss) = s ++ (ss.map (fun t => '_' :: t)).flatten := by
  induction ss generalizing s with
  | nil => simp [snakeR]
  | cons t ts ih => simp [snakeR, ih, List.append_assoc]

theorem mem_snakeR (segs : List Str) (h : ∀ s ∈ segs, ∀ c ∈ s, c ∈ az09Chars) :
    ∀ c ∈ snakeR segs, c ∈ az09Chars ∨ c = '_' := by
  induction segs with
  | nil => simp [snakeR]
  | cons s ss ih =>
    cases ss with
    | nil =>
      intro c hc
      exact Or.inl (h s (by simp) c hc)
    | cons t ts =>
      intro c hc
      rw [show snakeR (s :: t :: ts) = s ++ '_' :: snakeR (t :: ts) from rfl] at hc
      rcases List.mem_append.mp hc with h1 | h1
      · exact Or.inl (h s (by simp) c h1)
      · rcases List.mem_cons.mp h1 with rfl | h2
        · exact Or.inr rfl
        · exact ih (fun u hu => h u (List.mem_cons_of_mem _ hu)) c h2

theorem lowerAll_append (s t : Str) : lowerAll (s ++ t) = lowerAll s ++ lowerAll t := by
  simp [lowerAll]

theorem lowerAll_noop (s : Str) (h : ∀ c ∈ s, c.toLower = c) : lowerAll s = s := by
  rw [lowerAll, List.map_congr_left h, List.map_id']

theorem lowerAll_capFlatten (ss : List Str) (h : ∀ t ∈ ss, segOk t = true) :
    lowerAll ((ss.map (fun t => '_' :: capitalize t)).flatten) =
      (ss.map (fun t => '_' :: t)).flatten := by
  induction ss with
  | nil => rfl
  | cons t ts ih =>
    have htOk : segOk t = true := h t (by simp)
    have hlc : lowerAll ('_' :: capitalize t) = '_' :: t := by
      cases t with
      | nil => simp [segOk] at htOk
      | cons c cs =>
        have hchars := segOk_chars _ htOk
        have hcz : c ∈ azChars := segOk_head _ c cs rfl htOk
        have hcs : lowerAll cs = cs := lowerAll_noop cs (fun d hd =>
          az09_toLower d (hchars d (List.mem_cons_of_mem _ hd)))
        rw [capitalize]
        show Char.toLower '_' :: lowerAll (c.toUpper :: cs) = '_' :: c :: cs
        rw [show lowerAll (c.toUpper :: cs) = (c.toUpper).toLower :: lowerAll cs from rfl,
          az_toUpper_toLower c hcz, hcs]
        rfl
    calc lowerAll ((((t :: ts).map (fun u => '_' :: capitalize u))).flatten)
        = lowerAll (('_' :: capitalize t) ++ ((ts.map (fun u => '_' :: capitalize u))).flatten) := by
          simp
      _ = ('_' :: t) ++ ((ts.map (fun u => '_' :: u))).flatten := by
          rw [lowerAll_append, hlc, ih (fun u hu => h u (List.mem_cons_of_mem _ hu))]
      _ = (((t :: ts).map (fun u => '_' :: u))).flatten := by simp

theorem to_snake_snakeR (segs : List Str) (h : ∀ s ∈ segs, segOk s = true) :
    to_snake_case (snakeR segs) = snakeR segs := by
  have hmem : ∀ s ∈ segs, ∀ c ∈ s, c ∈ az09Chars := fun s hs => segOk_chars s (h s hs)
  have hup : ∀ c ∈ snakeR segs, c.isUpper = false := by
    intro c hc
    rcases mem_snakeR segs hmem c hc with h1 | h1
    · exact az09_not_upper c h1
    · subst h1; decide
  have hlo : ∀ c ∈ snakeR segs, c.toLower = c := by
    intro c hc
    rcases mem_snakeR segs hmem c hc with h1 | h1
    · exact az09_toLower c h1
    · subst h1; decide
  rw [to_snake_case, insUnd_no_upper _ hup, lowerAll_noop _ hlo]

theorem to_snake_camelR (segs : List Str) (h : goodSegs segs) :
    to_snake_case (camelR segs) = snakeR segs := by
  obtain ⟨hne, hok, hlen⟩ := h
  cases segs with
  | nil => exact absurd rfl hne
  | cons s ss =>
    have hs : segOk s = true := hok s (by simp)
    have hchars := segOk_chars s hs
    have hsne : s ≠ [] := by
      cases s with
      | nil => simp [segOk] at hs
      | cons c cs => simp
    have hins : insUnd s = s :=
      insUnd_no_upper s (fun c hc => az09_not_upper c (hchars c hc))
    have hlast : ((s.getLastD ' ').isLower || (s.getLastD ' ').isDigit) = true :=
      az09_lower_digit _ (hchars _ (getLastD_mem s ' ' hsne))
    have hok2 : ∀ t ∈ ss, segOk t = true := fun t ht => hok t (List.mem_cons_of_mem _ ht)
    have hlen2 : ∀ t ∈ ss.dropLast, 2 ≤ t.length := by
      intro t ht
      apply hlen
      cases ss with
      | nil => simp at ht
      | cons u us =>
        rw [List.dropLast_cons₂]
        exact List.mem_cons_of_mem _ ht
    rw [show camelR (s :: ss) = s ++ capJoin ss from rfl, to_snake_case,
      insUnd_capJoin ss s hsne hins hlast hok2 hlen2, lowerAll_append,
      lowerAll_noop s (fun c hc => az09_toLower c (hchars c hc)),
      lowerAll_capFlatten ss hok2, snakeR_cons]

theorem to_snake_pascalR (segs : List Str) (h : goodSegs segs) :
    to_snake_case (pascalR segs) = snakeR segs := by
  obtain ⟨hne, hok, hlen⟩ := h
  cases segs with
  | nil => exact absurd rfl hne
  | cons s ss =>
    have hs : segOk s = true := hok s (by simp)
    have hchars := segOk_chars s hs
    obtain ⟨c, cs, rfl⟩ : ∃ c cs, s = c :: cs := by
      cases s with
      | nil => simp [segOk] at hs
      | cons c cs => exact ⟨c, cs, rfl⟩
    have hcz : c ∈ azChars := segOk_head _ c cs rfl hs
    have hcsmem : ∀ d ∈ cs, d ∈ az09Chars := fun d hd =>
      hchars d (List.mem_cons_of_mem _ hd)
    have hcsI : insUnd cs = cs :=
      insUnd_no_upper cs (fun d hd => az09_not_upper d (hcsmem d hd))
    have hcsL : lowerAll cs = cs := lowerAll_noop cs (fun d hd => az09_toLower d (hcsmem d hd))
    have hxI : insUnd (capitalize (c :: cs)) = capitalize (c :: cs) := by
      rw [capitalize, insUnd_cons_first c.toUpper cs (az_toUpper_not_ld c hcz), hcsI]
    have hlowx : lowerAll (capitalize (c :: cs)) = c :: cs := by
      rw [capitalize]
      show (c.toUpper).toLower :: lowerAll cs = c :: cs
      rw [az_toUpper_toLower c hcz, hcsL]
    have hps : pascalR ((c :: cs) :: ss) = capitalize (c :: cs) ++ capJoin ss := by
      simp [pascalR, capJoin]
    cases ss with
    | nil =>
      rw [hps, show capJoin ([] : List Str) = [] from rfl, List.append_nil,
        to_snake_case, hxI, hlowx]
      rfl
    | cons s2 ss2 =>
      have hlen2 : 2 ≤ (c :: cs).length := by
        apply hlen
        rw [List.dropLast_cons₂]
        simp
      obtain ⟨d, ds, rfl⟩ : ∃ d ds, cs = d :: ds := by
        cases cs with
        | nil => simp at hlen2
        | cons d ds => exact ⟨d, ds, rfl⟩
      have hxne : capitalize (c :: d :: ds) ≠ [] := by simp [capitalize]
      have hxL : (((capitalize (c :: d :: ds)).getLastD ' ').isLower ||
          ((capitalize (c :: d :: ds)).getLastD ' ').isDigit) = true := by
        rw [capitalize, List.getLastD_cons]
        exact az09_lower_digit _ (hcsmem _ (getLastD_mem (d :: ds) c.toUpper (by simp)))
      have hok2 : ∀ t ∈ s2 :: ss2, segOk t = true := fun t ht =>
        hok t (List.mem_cons_of_mem _ ht)
      have hlen3 : ∀ t ∈ (s2 :: ss2).dropLast, 2 ≤ t.length := by
        intro t ht
        apply hlen
        rw [List.dropLast_cons₂]
        exact List.mem_cons_of_mem _ ht
      rw [hps, to_snake_case,
        insUnd_capJoin (s2 :: ss2) (capitalize (c :: d :: ds)) hxne hxI hxL hok2 hlen3,
        lowerAll_append, hlowx, lowerAll_capFlatten (s2 :: ss2) hok2, snakeR_cons]

/-! ## Claim C5 -/

/-- Claim C5 counterexample: the kebab-case and snake_case writings of the
same logical identifier `order item` do not normalize to the same triple —
the pipeline never treats `-` as a separator, so the kebab form passes
through unchanged. -/
theorem c5_counterexample :
    kebabR [lit "order", lit "item"] = lit "order-item" ∧
    snakeR [lit "order", lit "item"] = lit "order_item" ∧
    ¬ normalizeName (lit "order-item") = normalizeName (lit "order_item") := by decide

/-- Claim C5 (amended): for every logical identifier (a nonempty list of
word segments over lowercase letters and digits, each beginning with a
letter, segments before the last at least two characters long), the
snake_case, camelCase and PascalCase writings produce identical
`(snake, camel, pascal)` triples under the pipeline; a
lowercase-to-uppercase transition and an explicit `_` mark a word-segment
boundary, but `-` does not (kebab-case is not supported — see the
counterexample). -/
theorem c5_amended_idempotence (segs : List Str) (h : goodSegs segs) :
    normalizeName (snakeR segs) = normalizeName (camelR segs) ∧
    normalizeName (snakeR segs) = normalizeName (pascalR segs) := by
  have h1 := to_snake_snakeR segs h.2.1
  have h2 := to_snake_camelR segs h
  have h3 := to_snake_pascalR segs h
  constructor <;> simp [normalizeName, h1, h2, h3]

/-- Claim C5 witness: the identifier `order item` in its three supported
writings. -/
theorem c5_witness :
    goodSegs [lit "order", lit "item"] ∧
    normalizeName (snakeR [lit "order", lit "item"]) =
      normalizeName (camelR [lit "order", lit "item"]) ∧
    normalizeName (snakeR [lit "order", lit "item"]) =
      normalizeName (pascalR [lit "order", lit "item"]) :=
  ⟨⟨by decide, by decide, by decide⟩,
   (c5_amended_idempotence [lit "order", lit "item"]
     ⟨by decide, by decide, by decide⟩).1,
   (c5_amended_idempotence [lit "order", lit "item"]
     ⟨by decide, by decide, by decide⟩).2⟩
